import Mathlib

/-!
Verification of the MusicV real-time audio feature pipeline.

The definitions below are shallow embeddings of the Python sources of the
repository (src/src/audio, src/src/pattern, src/src/visual/effects):
Python floats are idealized as rationals, numpy 1-D arrays as lists of
rationals, numpy 2-D arrays as a column list together with a row count,
Python dicts as association lists without duplicate keys, and operations
that can raise an exception return Option.
-/

namespace MusicV

/-! ## Python dicts as association lists -/

/-- A Python dict with string keys.  Dicts built by the embedded code never
hold duplicate keys, so an association list where the first match wins is an
exact model. -/
abbrev AList (α : Type) : Type := List (String × α)

/-- Dict lookup: `d[k]` / `d.get(k)`. -/
def dget {α : Type} : AList α → String → Option α
  | [], _ => none
  | e :: rest, k => if e.1 = k then some e.2 else dget rest k

/-- Dict write: `d[k] = v`.  Replaces the first binding of `k`, appends a new
binding otherwise (Python dicts keep insertion order). -/
def dset {α : Type} : AList α → String → α → AList α
  | [], k, v => [(k, v)]
  | e :: rest, k, v => if e.1 = k then (k, v) :: rest else e :: dset rest k v

/-- Dict merge: `d.update(e)` writes every binding of `e` into `d`, in order,
so bindings of `e` win over bindings of `d`. -/
def dupdate {α : Type} (d e : AList α) : AList α :=
  e.foldl (fun acc kv => dset acc kv.1 kv.2) d

/-! ## Rational helpers shared by several components -/

/-- `np.max` over a list; `0` stands for the undefined maximum of an empty
array (the embedded code only applies it to non-empty windows). -/
def listMax (l : List ℚ) : ℚ := l.foldl max (l.headD 0)

/-- `np.sum`. -/
def listSum (l : List ℚ) : ℚ := l.foldl (· + ·) 0

/-- `np.mean`; the mean of an empty array (a NaN in numpy) is modelled as `0`.
Every use either guards against emptiness or only compares the result with a
positive threshold, where NaN and `0` both fail the comparison. -/
def listMean (l : List ℚ) : ℚ := listSum l / l.length

/-- `max(0.0, min(1.0, x))`. -/
def clamp01 (x : ℚ) : ℚ := max 0 (min 1 x)

/-- Checked division: Python raises `ZeroDivisionError` on a zero
denominator, modelled as `none`. -/
def qdiv? (a b : ℚ) : Option ℚ := if b = 0 then none else some (a / b)

/-! ## AudioFeatureBuffer (src/src/audio/audio_feature_generator.py, class
`AudioFeatureBuffer`)

The buffer is a `collections.deque` with `maxlen = max_size` (oldest entry
first) plus a cached latest slice.  The lock only serializes accesses, so it
has no sequential content and is not modelled.  The slice type is left as a
parameter `α`; the buffer never inspects slices. -/

structure AudioFeatureBuffer (α : Type) where
  maxSize : ℕ
  buffer : List (α × ℚ)
  currentFeatures : Option α
  latestTimestamp : ℚ
deriving DecidableEq

/-- `AudioFeatureBuffer(max_size)`: empty deque, no current slice. -/
def AudioFeatureBuffer.empty (α : Type) (maxSize : ℕ) : AudioFeatureBuffer α :=
  ⟨maxSize, [], none, 0⟩

/-- `put(features, timestamp)`: append to the deque (dropping the oldest
entries beyond `max_size`, as `deque(maxlen=...)` does) and cache the slice
as the current one. -/
def AudioFeatureBuffer.put {α : Type} (b : AudioFeatureBuffer α) (features : α)
    (timestamp : ℚ) : AudioFeatureBuffer α :=
  let nb := b.buffer ++ [(features, timestamp)]
  { b with
    buffer := if b.maxSize < nb.length then nb.drop (nb.length - b.maxSize) else nb
    currentFeatures := some features
    latestTimestamp := timestamp }

/-- `get_latest()`. -/
def AudioFeatureBuffer.getLatest {α : Type} (b : AudioFeatureBuffer α) : Option α :=
  b.currentFeatures

/-- `get_latest_with_timestamp()`. -/
def AudioFeatureBuffer.getLatestWithTimestamp {α : Type} (b : AudioFeatureBuffer α) :
    Option α × ℚ :=
  (b.currentFeatures, b.latestTimestamp)

/-- One step of the scan in `get_features_at_time`: the running state is
`(best_features, best_diff)`, where `best_diff = none` models the initial
`float('inf')`.  An entry is taken when `diff < tolerance and
diff < best_diff` (both comparisons strict, as in the source). -/
def AudioFeatureBuffer.nearStep {α : Type} (timestamp tolerance : ℚ)
    (best : Option α × Option ℚ) (e : α × ℚ) : Option α × Option ℚ :=
  let diff := |e.2 - timestamp|
  let ok := decide (diff < tolerance) &&
    (match best.2 with
     | none => true
     | some bd => decide (diff < bd))
  if ok then (some e.1, some diff) else best

/-- `get_features_at_time(timestamp, tolerance)`. -/
def AudioFeatureBuffer.getFeaturesAtTime {α : Type} (b : AudioFeatureBuffer α)
    (timestamp tolerance : ℚ) : Option α :=
  if b.buffer.isEmpty then none
  else (b.buffer.foldl (AudioFeatureBuffer.nearStep timestamp tolerance) (none, none)).1

/-- `clear()`. -/
def AudioFeatureBuffer.clear {α : Type} (b : AudioFeatureBuffer α) : AudioFeatureBuffer α :=
  { b with buffer := [], currentFeatures := none, latestTimestamp := 0 }

/-- A sequence of `put` calls, oldest first. -/
def putMany {α : Type} (b : AudioFeatureBuffer α) (l : List (α × ℚ)) :
    AudioFeatureBuffer α :=
  l.foldl (fun acc e => acc.put e.1 e.2) b

/-! ## Python values and numpy arrays -/

/-- A dynamically-typed Python value as used in the feature dictionaries:
a float, a string, a bool, a 1-D numpy array, or a 2-D numpy array
(stored as its list of columns). -/
inductive PVal where
  | num (q : ℚ)
  | str (s : String)
  | bool (b : Bool)
  | arr (xs : List ℚ)
  | arr2 (cols : List (List ℚ))
deriving DecidableEq

/-- A 2-D numpy array of shape `(rows, cols.length)`, stored column by
column (one entry of `cols` per frame), mirroring how the sources index
spectrogram-like arrays: `a.shape[1]` is the frame count and `a[:, i]` is
the `i`-th column. -/
structure Mat where
  rows : ℕ
  cols : List (List ℚ)
deriving DecidableEq

/-- `a.size` of a 2-D array. -/
def Mat.size (m : Mat) : ℕ := m.rows * m.cols.length

/-! ## AudioFeatureGenerator.start
(src/src/audio/audio_feature_generator.py, lines 318-367)

The pygame side effects are modelled by an environment record saying how
each external call would turn out, and `print` by a returned message list. -/

/-- Mutable state of an `AudioFeatureGenerator` as far as `start` touches
it: configuration, playback flags, whether a `Sound` object is loaded and
whether a worker thread has been launched. -/
structure AudioFeatureGenerator where
  sampleRate : ℕ
  hopLength : ℕ
  running : Bool
  isPlaying : Bool
  soundLoaded : Bool
  threadStarted : Bool
  startTime : ℚ
deriving DecidableEq

/-- Outcomes of the pygame calls made by `start`:
`mixerFreq` is `pygame.mixer.get_init()` (the current frequency when the
mixer is already initialized), `initOk`/`reinitOk` say whether
`pygame.mixer.init(frequency=...)` succeeds (fresh, resp. after a
`quit()`), `loadOk` whether `pygame.mixer.Sound(path)` loads, `playOk`
whether `sound.play()` succeeds, and `nowTicks` is
`pygame.time.get_ticks() / 1000`. -/
structure MixerEnv where
  mixerFreq : Option ℕ
  initOk : Bool
  reinitOk : Bool
  loadOk : Bool
  playOk : Bool
  nowTicks : ℚ
deriving DecidableEq

/-- The part of `start` after the mixer is known to be initialized: load
the sound, play it, record the start time, set `running` and launch the
worker thread.  Each `except` branch prints a message and returns. -/
def startAfterMixer (env : MixerEnv) (s : AudioFeatureGenerator) :
    AudioFeatureGenerator × List String :=
  if !env.loadOk then (s, ["load audio file failed"])
  else
    let s1 := { s with soundLoaded := true }
    if !env.playOk then (s1, ["play audio failed"])
    else
      ({ s1 with
          isPlaying := true
          startTime := env.nowTicks
          running := true
          threadStarted := true }, [])

/-- `AudioFeatureGenerator.start()`.  Returns the new state and the list of
printed error messages (empty on success). -/
def AudioFeatureGenerator.start (s : AudioFeatureGenerator) (env : MixerEnv) :
    AudioFeatureGenerator × List String :=
  if s.running then (s, [])
  else
    match env.mixerFreq with
    | none =>
      if env.initOk then startAfterMixer env s
      else (s, ["pygame.mixer initialization failed"])
    | some freq =>
      if freq = s.sampleRate then startAfterMixer env s
      else if env.reinitOk then startAfterMixer env s
      else (s, ["pygame.mixer re-initialization failed"])

/-- The playback device cannot be brought up: either the mixer is not
initialized and `init` fails, or it is initialized at the wrong sample rate
and the `quit`-then-`init` sequence fails. -/
def mixerInitFails (env : MixerEnv) (s : AudioFeatureGenerator) : Bool :=
  match env.mixerFreq with
  | none => !env.initOk
  | some freq => freq != s.sampleRate && !env.reinitOk

/-- The mixer comes up but the track cannot be loaded for playback. -/
def loadFails (env : MixerEnv) (s : AudioFeatureGenerator) : Bool :=
  !mixerInitFails env s && !env.loadOk

/-! ## Real-time slice generation
(src/src/audio/audio_feature_generator.py, `_generate_real_time_features`)

List indexing is embedded with `List.get?`, so an out-of-bounds access
surfaces as `none`; the claim is that under non-empty feature arrays the
result is always `some`. -/

/-- Full-track features handed to the generator: each category and each
feature key may be absent (`if "..." in ...` guards in the source). -/
structure TemporalFull where
  loudness : Option (List ℚ)
  amplitude : Option (List ℚ)
deriving DecidableEq

structure FrequencyFull where
  melSpectrogram : Option Mat
  spectrum : Option Mat
  logMelSpectrogram : Option Mat
deriving DecidableEq

structure RhythmFull where
  bpm : Option ℚ
  beatFrames : Option (List ℚ)
  beatTimes : Option (List ℚ)
  beatStrength : Option (List ℚ)
  onsetEnvelope : Option (List ℚ)
deriving DecidableEq

structure TimbreFull where
  mfcc : Option Mat
  spectralCentroid : Option (List ℚ)
deriving DecidableEq

structure FullFeatures where
  temporal : Option TemporalFull
  frequency : Option FrequencyFull
  rhythm : Option RhythmFull
  timbre : Option TimbreFull
deriving DecidableEq

/-- The published real-time slice. -/
structure RTTemporal where
  loudness : Option (List ℚ)
  amplitude : Option (List ℚ)
deriving DecidableEq

structure RTFrequency where
  melSpectrogram : Option (List (List ℚ))
  spectrum : Option (List (List ℚ))
  logMelSpectrogram : Option (List (List ℚ))
deriving DecidableEq

structure RTRhythm where
  bpm : ℚ
  beatFrames : List ℚ
  beatTimes : List ℚ
  onsetEnvelope : Option (List ℚ)
  isBeat : Option Bool
deriving DecidableEq

structure RTTimbre where
  spectralCentroid : Option (List ℚ)
deriving DecidableEq

structure RTSlice where
  temporal : Option RTTemporal
  frequency : Option RTFrequency
  rhythm : Option RTRhythm
  timbre : Option RTTimbre
deriving DecidableEq

/-- `current_frame = int(elapsed_time * sample_rate / hop_length)`;
for a non-negative elapsed time Python truncation is the floor. -/
def currentFrameIndex (sampleRate hopLength : ℕ) (elapsed : ℚ) : ℕ :=
  ⌊elapsed * sampleRate / hopLength⌋₊

/-- A per-frame lookup clamped as in the source:
`frame_idx = min(current_frame, len(a) - 1)` followed by `a[frame_idx]`. -/
def clampedGet? (l : List ℚ) (currentFrame : ℕ) : Option ℚ :=
  l.get? (min currentFrame (l.length - 1))

/-- Column lookup clamped with `min(current_frame, a.shape[1] - 1)`. -/
def clampedCol? (m : Mat) (currentFrame : ℕ) : Option (List ℚ) :=
  m.cols.get? (min currentFrame (m.cols.length - 1))

/-- The `±500`-sample amplitude window around the current playback sample,
zero-padded at the track edges (lines 176-204 of the source; slicing and
`np.pad` only, so this part is total). -/
def ampWindow (sampleRate : ℕ) (amplitude : List ℚ) (elapsed : ℚ) : List ℚ :=
  let windowSize : ℕ := 1000
  let sampleIdx := min (⌊elapsed * sampleRate⌋₊) (amplitude.length - 1)
  let startIdx := sampleIdx - windowSize / 2
  let endIdx := min amplitude.length (startIdx + windowSize)
  if endIdx - startIdx < windowSize then
    if startIdx = 0 then
      amplitude.take endIdx ++ List.replicate (windowSize - (endIdx - startIdx)) 0
    else
      List.replicate (windowSize - (endIdx - startIdx)) 0 ++ amplitude.drop startIdx
  else
    (amplitude.drop startIdx).take (endIdx - startIdx)

def rtTemporal (sampleRate : ℕ) (t : TemporalFull) (elapsed : ℚ)
    (currentFrame : ℕ) : Option RTTemporal := do
  let loudness ←
    match t.loudness with
    | none => pure none
    | some l => do
      let v ← clampedGet? l currentFrame
      pure (some [v])
  let amplitude := t.amplitude.map (fun a => ampWindow sampleRate a elapsed)
  pure { loudness := loudness, amplitude := amplitude }

/-- `a[:, frame_idx:frame_idx+1]`: the one-column 2-D extract. -/
def rtCol (m : Mat) (currentFrame : ℕ) : Option (List (List ℚ)) := do
  let c ← clampedCol? m currentFrame
  pure [c]

def rtFrequency (f : FrequencyFull) (currentFrame : ℕ) : Option RTFrequency := do
  let mel ←
    match f.melSpectrogram with
    | none => pure none
    | some m => some <$> rtCol m currentFrame
  let spec ←
    match f.spectrum with
    | none => pure none
    | some m => some <$> rtCol m currentFrame
  let logMel ←
    match f.logMelSpectrogram with
    | none => pure none
    | some m => some <$> rtCol m currentFrame
  pure { melSpectrogram := mel, spectrum := spec, logMelSpectrogram := logMel }

/-- The `±10`-frame onset-envelope window (clamped slicing, total). -/
def onsetWindow (onset : List ℚ) (currentFrame : ℕ) : List ℚ :=
  let frameIdx := min currentFrame (onset.length - 1)
  let windowSize := min 20 onset.length
  let startIdx := frameIdx - windowSize / 2
  let endIdx := min onset.length (frameIdx + windowSize / 2 + 1)
  (onset.drop startIdx).take (endIdx - startIdx)

def rtRhythm (r : RhythmFull) (elapsed : ℚ) (currentFrame : ℕ) : RTRhythm :=
  { bpm := r.bpm.getD 0
    beatFrames := r.beatFrames.getD []
    beatTimes := r.beatTimes.getD []
    onsetEnvelope := r.onsetEnvelope.map (fun env => onsetWindow env currentFrame)
    isBeat := r.beatTimes.map (fun bts => bts.any (fun bt => decide (|bt - elapsed| < 1/10))) }

def rtTimbre (tb : TimbreFull) (currentFrame : ℕ) : Option RTTimbre := do
  let sc ←
    match tb.spectralCentroid with
    | none => pure none
    | some l => do
      let v ← clampedGet? l currentFrame
      pure (some [v])
  pure { spectralCentroid := sc }

/-- `_generate_real_time_features(elapsed_time)`. -/
def generateRealTimeFeatures (sampleRate hopLength : ℕ) (full : FullFeatures)
    (elapsed : ℚ) : Option RTSlice := do
  let currentFrame := currentFrameIndex sampleRate hopLength elapsed
  let temporal ←
    match full.temporal with
    | none => pure none
    | some t => some <$> rtTemporal sampleRate t elapsed currentFrame
  let frequency ←
    match full.frequency with
    | none => pure none
    | some f => some <$> rtFrequency f currentFrame
  let rhythm := full.rhythm.map (fun r => rtRhythm r elapsed currentFrame)
  let timbre ←
    match full.timbre with
    | none => pure none
    | some tb => some <$> rtTimbre tb currentFrame
  pure { temporal := temporal, frequency := frequency, rhythm := rhythm, timbre := timbre }

/-- `none` on an absent feature, otherwise the stored 1-D array must be
non-empty. -/
def optNonempty (o : Option (List ℚ)) : Bool := o.all (fun l => !l.isEmpty)

/-- A 2-D feature has at least one frame column. -/
def Mat.nonemptyCols (m : Mat) : Bool := !m.cols.isEmpty

/-- Every per-category feature array that is present is non-empty. -/
def FullFeatures.allNonempty (f : FullFeatures) : Bool :=
  (match f.temporal with
   | none => true
   | some t => optNonempty t.loudness && optNonempty t.amplitude) &&
  (match f.frequency with
   | none => true
   | some fr =>
     fr.melSpectrogram.all Mat.nonemptyCols && fr.spectrum.all Mat.nonemptyCols &&
       fr.logMelSpectrogram.all Mat.nonemptyCols) &&
  (match f.rhythm with
   | none => true
   | some r =>
     optNonempty r.beatFrames && optNonempty r.beatTimes &&
       optNonempty r.beatStrength && optNonempty r.onsetEnvelope) &&
  (match f.timbre with
   | none => true
   | some tb => tb.mfcc.all Mat.nonemptyCols && optNonempty tb.spectralCentroid)

/-! ## Intensity trackers (src/src/visual/effects/beat_utils.py)

Live feature dictionaries are two levels deep: category name to feature
dict.  Feature values are dynamically typed `PVal`s. -/

abbrev LiveFeatures : Type := AList (AList PVal)

/-- `audio_features[cat][key]` guarded by
`cat in audio_features and key in audio_features[cat]`. -/
def dget2 (f : LiveFeatures) (cat key : String) : Option PVal :=
  match dget f cat with
  | none => none
  | some d => dget d key

/-- `smooth_beat_strength(current_beat, previous_beat, smoothing_factor)`:
the exponential moving average with the smoothing factor clamped to
`[0, 1]`. -/
def smooth_beat_strength (currentBeat previousBeat smoothingFactor : ℚ) : ℚ :=
  let sf := clamp01 smoothingFactor
  previousBeat + sf * (currentBeat - previousBeat)

/-- Raw beat strength extracted by `BeatStrengthTracker.update`
(lines 217-232): last element of a 1-D `beat_strength` array (mean of the
last column for 2-D data, the scalar itself for numbers — Python `bool` is
an `int`, so it passes the `isinstance` check), then normalized into
`[0, 1]` by halving values above `1`. -/
def rawBeatStrength (audioFeatures : LiveFeatures) : ℚ :=
  let rawBeat :=
    match dget2 audioFeatures "rhythm" "beat_strength" with
    | some (.num q) => q
    | some (.bool b) => if b then 1 else 0
    | some (.arr xs) => if xs.isEmpty then 0 else xs.getLastD 0
    | some (.arr2 cols) =>
      -- `np.mean(beat_data[:, -1])` when the 2-D array is non-empty;
      -- in the column encoding the last column is the last entry of `cols`
      if (cols.getLastD []).isEmpty then 0 else listMean (cols.getLastD [])
    | some (.str _) => 0
    | none => 0
  if 1 < rawBeat then min 1 (rawBeat / 2) else rawBeat

/-- The successive return values of `BeatStrengthTracker.update` over a
sequence of feature dicts, threading `current_beat` (first argument). -/
def beatTrackerSteps (smoothingFactor : ℚ) : ℚ → List LiveFeatures → List ℚ
  | _, [] => []
  | current, f :: rest =>
    let c := smooth_beat_strength (rawBeatStrength f) current smoothingFactor
    c :: beatTrackerSteps smoothingFactor c rest

/-- Tracker outputs starting from the uninitialized state
`current_beat = 0.0`. -/
def beatTrackerOutputs (smoothingFactor : ℚ) (fs : List LiveFeatures) : List ℚ :=
  beatTrackerSteps smoothingFactor 0 fs

/-- The trailing window of at most 20 frames used by
`calculate_onset_intensity`: `onset_env[max(0, len - min(20, len)):]`. -/
def onsetLocalWindow (env : List ℚ) : List ℚ :=
  let windowSize := min 20 env.length
  env.drop (env.length - windowSize)

/-- The raw (pre-smoothing) onset intensity of a non-empty envelope
(lines 290-307): last sample normalized by the local window maximum when
that maximum is positive, clamped to `[0, 1]`, then raised to at least half
of the window mean over the window maximum.  Divisions are checked, so a
`ZeroDivisionError` would surface as `none`. -/
def calcOnsetRaw (env : List ℚ) : Option ℚ := do
  let ci := env.getLastD 0
  let window := onsetLocalWindow env
  let localMax := listMax window
  let ci ← if 0 < localMax then qdiv? ci localMax else pure ci
  let ci := clamp01 ci
  let localMean := listMean window
  let baseIntensity ← if 0 < localMax then qdiv? localMean localMax else pure 0
  pure (max ci (baseIntensity * (1/2)))

/-- `calculate_onset_intensity(audio_features, previous_intensity,
smoothing_factor)`.  The `elif` fallback on `beat_strength` only runs when
the `onset_envelope` key is absent.  A 2-D fallback array with more than
one column would make `float(beat_strength[-1])` raise in Python, modelled
as `none`; no claim exercises that corner. -/
def calculate_onset_intensity (audioFeatures : LiveFeatures)
    (previousIntensity smoothingFactor : ℚ) : Option ℚ := do
  let current ←
    match dget2 audioFeatures "rhythm" "onset_envelope" with
    | some v =>
      match v with
      | .arr env => if env.isEmpty then pure 0 else calcOnsetRaw env
      | _ => pure (0 : ℚ)
    | none =>
      match dget2 audioFeatures "rhythm" "beat_strength" with
      | some (.arr bs) => pure (if bs.isEmpty then 0 else clamp01 (bs.getLastD 0))
      | some (.arr2 []) => pure 0
      | some (.arr2 [c]) => if c.isEmpty then pure 0 else pure (clamp01 (c.getLastD 0))
      | some (.arr2 _) => none
      | _ => pure 0
  let sf := clamp01 smoothingFactor
  pure (previousIntensity + sf * (current - previousIntensity))

/-! ## MusicStyleAnalyzer (src/src/audio/music_style_analyzer.py)

The analyzer reads the same full-track feature dictionary as the
generator, so it is embedded over `FullFeatures`.  The only non-rational
quantity is `spectral_bandwidth = sqrt(v)`; since it is used solely in
comparisons against non-negative constants and its radicand is
non-negative for magnitude spectra, the embedding stores the radicand
(`spectralBandwidthSq`) and compares against the squared thresholds, which
is an exact translation. -/

structure StyleFeatures where
  amplitude : ℚ
  loudness : ℚ
  bpm : ℚ
  spectralCentroid : ℚ
  /-- the square of the code's `spectral_bandwidth` aggregate -/
  spectralBandwidthSq : ℚ
  lowFreqEnergy : ℚ
  highFreqEnergy : ℚ
deriving DecidableEq

/-- `np.linspace(0, 1, n)`. -/
def linspace01 (n : ℕ) : List ℚ :=
  if n ≤ 1 then List.replicate n 0
  else (List.range n).map (fun i => (i : ℚ) / ((n : ℚ) - 1))

/-- `np.mean(spectrum, axis=1)`: the per-bin mean across frames (rows of
the column-encoded matrix). -/
def rowMeans (m : Mat) : List ℚ :=
  (List.range m.rows).map (fun r => listMean (m.cols.map (fun c => c.getD r 0)))

/-- `np.sum(a * b)` for 1-D arrays of equal length. -/
def dotSum (a b : List ℚ) : ℚ := listSum (List.zipWith (· * ·) a b)

/-- The spectrum-derived aggregates of `analyze` (lines 124-144):
spectral centroid, squared spectral bandwidth, low-band energy (bottom 20%
of bins) and high-band energy (top 20% of bins).  `int(freq_bins * 0.2)`
and `int(freq_bins * 0.8)` are `⌊n/5⌋` and `⌊4n/5⌋` for realistic bin
counts.  `np.mean` of an empty band slice is a NaN in numpy; it is
modelled as `0`, and both fail the single `> 0.4` comparison that uses it. -/
def spectrumStats (m : Mat) : ℚ × ℚ × ℚ × ℚ :=
  let freqBins := m.rows
  let freqs := linspace01 freqBins
  let spectrumMean := rowMeans m
  let s := listSum spectrumMean
  let centroid := if 0 < s then dotSum freqs spectrumMean / s else 0
  let bandwidthSq :=
    if 0 < s then
      listSum (List.zipWith (fun w fq => w * (fq - centroid) ^ 2) spectrumMean freqs) / s
    else 0
  let lowFreq := listMean (spectrumMean.take (freqBins / 5))
  let highFreq := listMean (spectrumMean.drop (freqBins * 4 / 5))
  (centroid, bandwidthSq, lowFreq, highFreq)

/-- The aggregate feature record computed by `analyze` before scoring
(lines 87-144). -/
def computeStyleFeatures (d : FullFeatures) : StyleFeatures :=
  let amplitude :=
    match d.temporal with
    | some t =>
      match t.amplitude with
      | some a => if a.isEmpty then 0 else listMean a
      | none => 0
    | none => 0
  let loudness :=
    match d.temporal with
    | some t =>
      match t.loudness with
      | some l => if l.isEmpty then 0 else listMean l
      | none => 0
    | none => 0
  let bpm :=
    match d.rhythm with
    | some r => r.bpm.getD 0
    | none => 0
  match d.frequency.bind (·.spectrum) with
  | some m =>
    if 0 < m.size then
      let st := spectrumStats m
      { amplitude := amplitude, loudness := loudness, bpm := bpm
        spectralCentroid := st.1, spectralBandwidthSq := st.2.1
        lowFreqEnergy := st.2.2.1, highFreqEnergy := st.2.2.2 }
    else
      { amplitude := amplitude, loudness := loudness, bpm := bpm
        spectralCentroid := 0, spectralBandwidthSq := 0
        lowFreqEnergy := 0, highFreqEnergy := 0 }
  | none =>
    { amplitude := amplitude, loudness := loudness, bpm := bpm
      spectralCentroid := 0, spectralBandwidthSq := 0
      lowFreqEnergy := 0, highFreqEnergy := 0 }

/-- `_score_piano`. -/
def scorePiano (f : StyleFeatures) : ℚ :=
  (if 2/10 < f.amplitude ∧ f.amplitude < 6/10 then 2 else 0) +
  (if 60 < f.bpm ∧ f.bpm < 120 then 2 else 0) +
  (if 4/10 < f.spectralCentroid then 3 else 0) +
  (if f.spectralBandwidthSq < (2/10) ^ 2 then 2 else 0)

/-- `_score_rock`. -/
def scoreRock (f : StyleFeatures) : ℚ :=
  (if 5/10 < f.amplitude then 3 else 0) +
  (if 100 < f.bpm ∧ f.bpm < 160 then 2 else 0) +
  (if 3/10 < f.highFreqEnergy then 3 else 0) +
  (if (25/100) ^ 2 < f.spectralBandwidthSq then 2 else 0)

/-- `_score_dj`. -/
def scoreDj (f : StyleFeatures) : ℚ :=
  (if 4/10 < f.amplitude then 2 else 0) +
  (if 120 < f.bpm ∧ f.bpm < 180 then 3 else 0) +
  (if 4/10 < f.lowFreqEnergy then 3 else 0) +
  (if 3/10 < f.spectralCentroid ∧ f.spectralCentroid < 6/10 then 2 else 0)

/-- `_score_light`. -/
def scoreLight (f : StyleFeatures) : ℚ :=
  (if f.amplitude < 3/10 then 3 else 0) +
  (if f.bpm < 100 then 2 else 0) +
  (if f.highFreqEnergy < 2/10 then 2 else 0) +
  (if f.spectralBandwidthSq < (2/10) ^ 2 then 2 else 0)

/-- The four fixed style profiles, in registration order. -/
inductive Style where
  | piano
  | rock
  | dj
  | light
deriving DecidableEq

def styleScore (f : StyleFeatures) : Style → ℚ
  | .piano => scorePiano f
  | .rock => scoreRock f
  | .dj => scoreDj f
  | .light => scoreLight f

/-- The iteration order of the `style_scores` dict literal. -/
def styleOrder : List Style := [.piano, .rock, .dj, .light]

/-- Position of a style in registration order. -/
def styleIndex : Style → ℕ
  | .piano => 0
  | .rock => 1
  | .dj => 2
  | .light => 3

/-- `max(style_scores, key=style_scores.get)`: Python's `max` scans in
insertion order and replaces the current best only on a strictly greater
key, so the first style attaining the maximum wins. -/
def argmaxStyle (f : StyleFeatures) : Style :=
  [Style.rock, Style.dj, Style.light].foldl
    (fun best s => if styleScore f best < styleScore f s then s else best) Style.piano

/-- `if not audio_features`: the feature dict is empty. -/
def FullFeatures.isEmptyDict (d : FullFeatures) : Bool :=
  d.temporal.isNone && d.frequency.isNone && d.rhythm.isNone && d.timbre.isNone

/-- `MusicStyleAnalyzer.analyze`. -/
def analyze (d : FullFeatures) : Option Style :=
  if d.isEmptyDict then none
  else some (argmaxStyle (computeStyleFeatures d))

/-! ## PatternMatcher and PatternLibrary
(src/src/pattern/pattern_matcher.py, src/src/pattern/pattern_library.py)

The matcher's live feature dict is flat (`"amplitude"`, `"spectrum"`,
`"is_beat"` are looked up at top level). -/

abbrev LiveDict : Type := AList PVal

/-- `np.mean(value)`.  A string operand raises in numpy; no claim feeds a
string into a mean, so it is mapped to `0`. -/
def pvalMean : PVal → ℚ
  | .num q => q
  | .bool b => if b then 1 else 0
  | .arr xs => listMean xs
  | .arr2 cols => listMean cols.flatten
  | .str _ => 0

/-- `np.mean(np.abs(value))`. -/
def pvalAbsMean : PVal → ℚ
  | .num q => |q|
  | .bool b => if b then 1 else 0
  | .arr xs => listMean (xs.map (fun x => |x|))
  | .arr2 cols => listMean (cols.flatten.map (fun x => |x|))
  | .str _ => 0

/-- Numeric value of a configured sensitivity (the registered categories
store plain floats). -/
def pvalToQ : PVal → ℚ
  | .num q => q
  | .bool b => if b then 1 else 0
  | _ => 0

/-- Python truthiness of a feature value (`if is_beat`).  A numpy array of
length other than one raises; the registered flags are booleans, so that
corner is mapped to `false`. -/
def pvalTruthy : PVal → Bool
  | .num q => decide (q ≠ 0)
  | .str s => decide (s ≠ "")
  | .bool b => b
  | .arr [x] => decide (x ≠ 0)
  | .arr _ => false
  | .arr2 _ => false

/-- The `temporal_sensitivity` section of `_apply_mapping_rules`
(lines 59-66). -/
def temporalBranch (audioFeatures baseParams vp : LiveDict) : LiveDict :=
  match dget baseParams "temporal_sensitivity" with
  | none => vp
  | some tv =>
    let vp := dset vp "temporal_sensitivity" tv
    match dget audioFeatures "amplitude" with
    | none => vp
    | some amp => dset vp "amplitude_response" (.num (pvalMean amp * pvalToQ tv))

/-- The `frequency_sensitivity` section (lines 69-77). -/
def frequencyBranch (audioFeatures baseParams vp : LiveDict) : LiveDict :=
  match dget baseParams "frequency_sensitivity" with
  | none => vp
  | some fv =>
    let vp := dset vp "frequency_sensitivity" fv
    match dget audioFeatures "spectrum" with
    | none => vp
    | some spec => dset vp "spectrum_response" (.num (pvalAbsMean spec * pvalToQ fv))

/-- The `rhythm_sensitivity` section (lines 80-87): note the source writes
`rhythm_sens if is_beat else 0.5` — the off-beat branch is the literal
`0.5`, not a scaled sensitivity. -/
def rhythmBranch (audioFeatures baseParams vp : LiveDict) : LiveDict :=
  match dget baseParams "rhythm_sensitivity" with
  | none => vp
  | some rv =>
    let vp := dset vp "rhythm_sensitivity" rv
    match dget audioFeatures "is_beat" with
    | none => vp
    | some ib => dset vp "beat_response" (if pvalTruthy ib then rv else .num (1/2))

/-- The `dynamic_range` section (lines 90-92). -/
def dynamicBranch (baseParams vp : LiveDict) : LiveDict :=
  match dget baseParams "dynamic_range" with
  | none => vp
  | some dv => dset vp "dynamic_range" dv

/-- `_apply_mapping_rules(audio_features, base_params, visual_config)`:
starts from a copy of the visual config and applies the four sections in
order. -/
def applyMappingRules (audioFeatures baseParams visualConfig : LiveDict) : LiveDict :=
  dynamicBranch baseParams
    (rhythmBranch audioFeatures baseParams
      (frequencyBranch audioFeatures baseParams
        (temporalBranch audioFeatures baseParams visualConfig)))

/-- A registered audio category; `match_audio_to_visual` only reads its
`base_attributes` entry (`audio_config.get("base_attributes", {})`). -/
structure CategoryConfig where
  baseAttributes : LiveDict
deriving DecidableEq

/-- A registered pattern: the `(audio_category, visual_effect,
custom_config)` triple built by `create_pattern`. -/
structure PatternConfig where
  audioCategory : String
  visualEffect : String
  customConfig : LiveDict
deriving DecidableEq

structure PatternMatcher where
  audioCategories : AList CategoryConfig
  visualEffects : AList LiveDict
  patterns : AList PatternConfig
deriving DecidableEq

/-- `PatternMatcher()`: all registries empty. -/
def PatternMatcher.init : PatternMatcher := ⟨[], [], []⟩

/-- `register_audio_category`. -/
def PatternMatcher.registerAudioCategory (m : PatternMatcher) (name : String)
    (cfg : CategoryConfig) : PatternMatcher :=
  { m with audioCategories := dset m.audioCategories name cfg }

/-- `create_pattern` (which also registers the pattern). -/
def PatternMatcher.createPattern (m : PatternMatcher)
    (patternName audioCategory visualEffect : String)
    (customConfig : LiveDict) : PatternMatcher :=
  { m with patterns := dset m.patterns patternName ⟨audioCategory, visualEffect, customConfig⟩ }

/-- `match_audio_to_visual`. -/
def PatternMatcher.matchAudioToVisual (m : PatternMatcher) (audioCategory : String)
    (audioFeatures : LiveDict) (visualEffect : String) : LiveDict :=
  let baseParams :=
    match dget m.audioCategories audioCategory with
    | some cfg => cfg.baseAttributes
    | none => []
  let visualConfig := (dget m.visualEffects visualEffect).getD []
  applyMappingRules audioFeatures baseParams visualConfig

/-- `apply_pattern(pattern_name, audio_features)`: derive the visual
parameters and overlay the pattern's custom config last, so custom values
always win. -/
def PatternMatcher.applyPattern (m : PatternMatcher) (patternName : String)
    (audioFeatures : LiveDict) : LiveDict :=
  match dget m.patterns patternName with
  | none => []
  | some pc =>
    dupdate (m.matchAudioToVisual pc.audioCategory audioFeatures pc.visualEffect)
      pc.customConfig

set_option maxHeartbeats 1600000 in
/-- The statically listed default patterns of
`PatternLibrary._register_default_patterns` (lines 16-603), in
registration order: `(pattern_name, audio_category, visual_effect,
custom_config)`. -/
def defaultPatternList : List (String × String × String × LiveDict) :=
  [ ("default_waveform", "default", "waveform",
      [("color", .str "#FFFFFF"), ("line_width", .num 2), ("smoothness", .num (8/10))]),
    ("default_spectrum", "default", "spectrum",
      [("color", .str "#FFFFFF"), ("bar_width", .num 6), ("intensity", .num 1)]),
    ("default_equalizer", "default", "equalizer",
      [("color", .str "#FFFFFF"), ("bar_width", .num 6), ("smoothness", .num (8/10))]),
    ("default_spectrum_cube", "default", "spectrum_cube",
      [("color", .str "#FFFFFF"), ("cube_size", .num 15), ("rotation_speed", .num (5/10))]),
    ("default_3d_model", "default", "3d_model",
      [("color", .str "#FFFFFF"), ("model_scale", .num 1), ("rotation_speed", .num (3/10))]),
    ("default_particles", "default", "particles",
      [("particle_count", .num 300), ("min_size", .num 3), ("max_size", .num 8),
       ("color_palette", .str "default"), ("movement_pattern", .str "default")]),
    ("default_beat_particles", "default", "beat_particles",
      [("particle_count", .num 250), ("min_size", .num 3), ("max_size", .num 8),
       ("color_palette", .str "default"), ("beat_sensitivity", .num (8/10))]),
    ("default_jumping_particles", "default", "jumping_particles",
      [("particle_count", .num 250), ("min_size", .num 3), ("max_size", .num 8),
       ("min_jump_height", .num 15), ("max_jump_height", .num 80),
       ("min_jump_speed", .num (6/100)), ("max_jump_speed", .num (15/100)),
       ("trail_length", .num 4), ("color_palette", .str "default")]),
    ("default_style_aware_particles", "default", "style_aware_particles",
      [("particle_count", .num 250), ("min_size", .num 3), ("max_size", .num 8),
       ("color_palette", .str "default"), ("style_sensitivity", .num (8/10))]),
    ("default_comprehensive", "default", "comprehensive",
      [("show_waveform", .bool true), ("show_spectrum", .bool true),
       ("show_particles", .bool true), ("show_3d", .bool false)]),
    ("piano_waveform", "piano", "waveform",
      [("color", .str "#FFD700"), ("line_width", .num 2), ("smoothness", .num (8/10))]),
    ("piano_particles", "piano", "particles",
      [("particle_count", .num 300), ("min_size", .num 2), ("max_size", .num 6),
       ("color_palette", .str "pastel"), ("movement_pattern", .str "smooth_flow")]),
    ("rock_spectrum", "rock", "spectrum",
      [("color", .str "#FF4500"), ("bar_width", .num 8), ("intensity", .num (15/10))]),
    ("rock_particles", "rock", "particles",
      [("particle_count", .num 400), ("min_size", .num 3), ("max_size", .num 10),
       ("color_palette", .str "vibrant"), ("movement_pattern", .str "intense_jump")]),
    ("dj_spectrum", "dj", "spectrum",
      [("color", .str "#00FFFF"), ("bar_width", .num 6), ("intensity", .num (18/10)),
       ("neon_glow", .bool true)]),
    ("dj_particles", "dj", "particles",
      [("particle_count", .num 350), ("min_size", .num 2), ("max_size", .num 8),
       ("min_jump_height", .num 20), ("max_jump_height", .num 120),
       ("min_jump_speed", .num (8/100)), ("max_jump_speed", .num (18/100)),
       ("trail_length", .num 5), ("color_palette", .str "neon_glow"),
       ("movement_pattern", .str "geometric_sync")]),
    ("light_waveform", "light", "waveform",
      [("color", .str "#87CEEB"), ("line_width", .num 2), ("smoothness", .num (9/10))]),
    ("light_spectrum", "light", "spectrum",
      [("color", .str "#87CEEB"), ("bar_width", .num 4), ("intensity", .num (7/10))]),
    ("light_particles", "light", "particles",
      [("particle_count", .num 200), ("min_size", .num 2), ("max_size", .num 5),
       ("color_palette", .str "soft_blue"), ("movement_pattern", .str "gentle_float")]),
    ("piano_equalizer", "piano", "equalizer",
      [("color", .str "#FFD700"), ("bar_width", .num 6), ("smoothness", .num (9/10))]),
    ("rock_equalizer", "rock", "equalizer",
      [("color", .str "#FF4500"), ("bar_width", .num 10), ("smoothness", .num (5/10))]),
    ("dj_equalizer", "dj", "equalizer",
      [("color", .str "#00FFFF"), ("bar_width", .num 8), ("smoothness", .num (7/10)),
       ("neon_glow", .bool true)]),
    ("light_equalizer", "light", "equalizer",
      [("color", .str "#87CEEB"), ("bar_width", .num 4), ("smoothness", .num (95/100))]),
    ("piano_spectrum_cube", "piano", "spectrum_cube",
      [("color", .str "#FFD700"), ("cube_size", .num 15), ("rotation_speed", .num (5/10))]),
    ("rock_spectrum_cube", "rock", "spectrum_cube",
      [("color", .str "#FF4500"), ("cube_size", .num 20), ("rotation_speed", .num 1)]),
    ("dj_spectrum_cube", "dj", "spectrum_cube",
      [("color", .str "#00FFFF"), ("cube_size", .num 18), ("rotation_speed", .num (8/10)),
       ("neon_glow", .bool true)]),
    ("light_spectrum_cube", "light", "spectrum_cube",
      [("color", .str "#87CEEB"), ("cube_size", .num 12), ("rotation_speed", .num (3/10))]),
    ("piano_3d_model", "piano", "3d_model",
      [("color", .str "#FFD700"), ("model_scale", .num 1), ("rotation_speed", .num (3/10))]),
    ("rock_3d_model", "rock", "3d_model",
      [("color", .str "#FF4500"), ("model_scale", .num (12/10)), ("rotation_speed", .num (8/10))]),
    ("dj_3d_model", "dj", "3d_model",
      [("color", .str "#00FFFF"), ("model_scale", .num (11/10)), ("rotation_speed", .num (6/10)),
       ("neon_glow", .bool true)]),
    ("light_3d_model", "light", "3d_model",
      [("color", .str "#87CEEB"), ("model_scale", .num (9/10)), ("rotation_speed", .num (2/10))]),
    ("piano_beat_particles", "piano", "beat_particles",
      [("particle_count", .num 250), ("min_size", .num 3), ("max_size", .num 8),
       ("color_palette", .str "pastel"), ("beat_sensitivity", .num (6/10))]),
    ("rock_beat_particles", "rock", "beat_particles",
      [("particle_count", .num 350), ("min_size", .num 4), ("max_size", .num 12),
       ("color_palette", .str "vibrant"), ("beat_sensitivity", .num (12/10))]),
    ("dj_beat_particles", "dj", "beat_particles",
      [("particle_count", .num 300), ("min_size", .num 3), ("max_size", .num 10),
       ("color_palette", .str "neon_glow"), ("beat_sensitivity", .num 1),
       ("neon_glow", .bool true)]),
    ("light_beat_particles", "light", "beat_particles",
      [("particle_count", .num 200), ("min_size", .num 2), ("max_size", .num 6),
       ("color_palette", .str "soft_blue"), ("beat_sensitivity", .num (5/10))]),
    ("piano_jumping_particles", "piano", "jumping_particles",
      [("particle_count", .num 250), ("min_size", .num 3), ("max_size", .num 8),
       ("min_jump_height", .num 10), ("max_jump_height", .num 60),
       ("min_jump_speed", .num (5/100)), ("max_jump_speed", .num (12/100)),
       ("trail_length", .num 3), ("color_palette", .str "pastel")]),
    ("rock_jumping_particles", "rock", "jumping_particles",
      [("particle_count", .num 350), ("min_size", .num 4), ("max_size", .num 12),
       ("min_jump_height", .num 30), ("max_jump_height", .num 150),
       ("min_jump_speed", .num (8/100)), ("max_jump_speed", .num (20/100)),
       ("trail_length", .num 7), ("color_palette", .str "vibrant")]),
    ("dj_jumping_particles", "dj", "jumping_particles",
      [("particle_count", .num 300), ("min_size", .num 3), ("max_size", .num 10),
       ("min_jump_height", .num 20), ("max_jump_height", .num 120),
       ("min_jump_speed", .num (6/100)), ("max_jump_speed", .num (18/100)),
       ("trail_length", .num 5), ("color_palette", .str "neon_glow"),
       ("neon_glow", .bool true)]),
    ("light_jumping_particles", "light", "jumping_particles",
      [("particle_count", .num 200), ("min_size", .num 2), ("max_size", .num 6),
       ("min_jump_height", .num 5), ("max_jump_height", .num 40),
       ("min_jump_speed", .num (3/100)), ("max_jump_speed", .num (10/100)),
       ("trail_length", .num 2), ("color_palette", .str "soft_blue")]),
    ("piano_style_aware_particles", "piano", "style_aware_particles",
      [("particle_count", .num 250), ("min_size", .num 3), ("max_size", .num 8),
       ("color_palette", .str "pastel"), ("style_sensitivity", .num (7/10))]),
    ("rock_style_aware_particles", "rock", "style_aware_particles",
      [("particle_count", .num 350), ("min_size", .num 4), ("max_size", .num 12),
       ("color_palette", .str "vibrant"), ("style_sensitivity", .num (13/10))]),
    ("dj_style_aware_particles", "dj", "style_aware_particles",
      [("particle_count", .num 300), ("min_size", .num 3), ("max_size", .num 10),
       ("color_palette", .str "neon_glow"), ("style_sensitivity", .num (11/10)),
       ("neon_glow", .bool true)]),
    ("light_style_aware_particles", "light", "style_aware_particles",
      [("particle_count", .num 200), ("min_size", .num 2), ("max_size", .num 6),
       ("color_palette", .str "soft_blue"), ("style_sensitivity", .num (6/10))]) ]

/-- The `{style}_comprehensive` loop (lines 605-617). -/
def comprehensivePatterns : List (String × String × String × LiveDict) :=
  ["piano", "rock", "dj", "light"].map (fun style =>
    (style ++ "_comprehensive", style, "comprehensive",
      [("show_waveform", .bool true), ("show_spectrum", .bool true),
       ("show_particles", .bool true), ("show_3d", .bool false)]))

/-- The five styles of the weather-effect loops. -/
def weatherStyles : List String := ["default", "piano", "rock", "dj", "light"]

/-- The chained conditional for `rain_color` (line 629). -/
def rainColor (style : String) : String :=
  if style = "default" then "#3498db"
  else if style = "light" then "#87CEEB"
  else if style = "dj" then "#00FFFF"
  else if style = "piano" then "#FFD700"
  else "#FF4500"

def rainPattern (style : String) : String × String × String × LiveDict :=
  (style ++ "_rain", style, "rain",
    [("rain_count", .num (if style = "default" then 100 else 150)),
     ("rain_speed", .num (if style = "default" then 5 else 6)),
     ("rain_length", .num (if style = "default" then 10 else 12)),
     ("rain_color", .str (rainColor style))])

/-- The chained conditional for `fire_color` (line 644). -/
def fireColor (style : String) : String :=
  if style = "default" then "#ff4500"
  else if style = "piano" then "#FFD700"
  else if style = "rock" then "#FF0000"
  else if style = "dj" then "#00FFFF"
  else "#FFA500"

def firePattern (style : String) : String × String × String × LiveDict :=
  (style ++ "_fire", style, "fire",
    [("particle_count", .num (if style = "default" then 50 else 80)),
     ("spawn_rate", .num (if style = "default" then 1/10 else 15/100)),
     ("base_size", .num (if style = "default" then 5 else 6)),
     ("base_speed", .num (if style = "default" then 2 else 3)),
     ("fire_color", .str (fireColor style))])

/-- The chained conditional for `snow_color` (line 659). -/
def snowColor (style : String) : String :=
  if style = "default" then "#FFFFFF"
  else if style = "light" then "#E0FFFF"
  else if style = "dj" then "#87CEEB"
  else if style = "piano" then "#FFD700"
  else "#FF6347"

def snowPattern (style : String) : String × String × String × LiveDict :=
  (style ++ "_snow", style, "snow",
    [("snow_count", .num (if style = "default" then 100 else 150)),
     ("snow_speed", .num (if style = "default" then 2 else 25/10)),
     ("snow_size", .num (if style = "default" then 3 else 4)),
     ("snow_drift", .num (if style = "default" then 5/10 else 8/10)),
     ("snow_color", .str (snowColor style))])

/-- `PatternLibrary._register_default_patterns`, run against a matcher. -/
def registerDefaultPatterns (m : PatternMatcher) : PatternMatcher :=
  (defaultPatternList ++ comprehensivePatterns ++ weatherStyles.map rainPattern ++
      weatherStyles.map firePattern ++ weatherStyles.map snowPattern).foldl
    (fun acc e => acc.createPattern e.1 e.2.1 e.2.2.1 e.2.2.2) m

/-- A fresh `PatternMatcher` with the `PatternLibrary` defaults installed,
matching how `main.py` and `main_window.py` wire the two up (no audio
categories or visual effects are ever registered there). -/
def libraryMatcher : PatternMatcher := registerDefaultPatterns PatternMatcher.init

/-- `PianoAudioCategory.get_base_attributes()`
(src/src/audio/audio_categories.py, lines 17-24). -/
def pianoBaseAttributes : LiveDict :=
  [("temporal_sensitivity", .num (8/10)), ("frequency_sensitivity", .num (7/10)),
   ("rhythm_sensitivity", .num (6/10)), ("dynamic_range", .num (7/10))]

/-! ## FeatureExtractorManager.extract_all
(src/src/audio/feature_extractor.py)

The librosa feature functions are external library calls.  Their
documented output shapes are modelled exactly (with `center=True` framing
a signal of `n` samples yields `1 + ⌊n/hop⌋` frames); their sample values
are outside the repository and are not modelled — every claim about
`extract_all` concerns array shapes only.  The repository's own
post-processing of the onset envelope (sliding-window maximum, percentile
floor, renormalization) is embedded in full. -/

structure FeatureConfig where
  windowSize : ℕ
  hopSize : ℕ
  nFft : ℕ
  nMels : ℕ
  nMfcc : ℕ
  bpmRange : List ℕ
deriving DecidableEq

/-- `FeatureConfig()` defaults (lines 11-20). -/
def FeatureConfig.defaults : FeatureConfig := ⟨2048, 512, 2048, 128, 13, [60, 200]⟩

/-- Frame count of a centered librosa per-frame feature. -/
def nFrames (n hop : ℕ) : ℕ := 1 + n / hop

/-- Shape model of `librosa.feature.rms`. -/
def librosaRms (y : List ℚ) (_frameLength hopLength : ℕ) : List ℚ :=
  List.replicate (nFrames y.length hopLength) 0

/-- Shape model of `librosa.feature.zero_crossing_rate`. -/
def librosaZeroCrossingRate (y : List ℚ) (_frameLength hopLength : ℕ) : List ℚ :=
  List.replicate (nFrames y.length hopLength) 0

/-- Shape model of `np.abs(librosa.stft(...))`: `1 + nFft/2` frequency bins
by `1 + ⌊n/hop⌋` frames. -/
def librosaStftAbs (y : List ℚ) (nFft hopLength : ℕ) : Mat :=
  ⟨nFft / 2 + 1, List.replicate (nFrames y.length hopLength) (List.replicate (nFft / 2 + 1) 0)⟩

/-- Shape model of `librosa.feature.melspectrogram`. -/
def librosaMelspectrogram (y : List ℚ) (_sr _nFft hopLength nMels : ℕ) : Mat :=
  ⟨nMels, List.replicate (nFrames y.length hopLength) (List.replicate nMels 0)⟩

/-- `librosa.power_to_db` is elementwise, hence shape-preserving; values
are not modelled. -/
def librosaPowerToDb (m : Mat) : Mat := m

/-- Model of `librosa.beat.beat_track(..., start_bpm=..., tightness=100)`:
the tempo value and beat frame positions are not modelled. -/
def librosaBeatTrack (_y : List ℚ) (_sr _startBpm : ℕ) : ℚ × List ℚ := (0, [])

/-- `librosa.frames_to_time(frames, sr, hop_length) = frames * hop / sr`. -/
def librosaFramesToTime (frames : List ℚ) (sr hopLength : ℕ) : List ℚ :=
  frames.map (fun f => f * hopLength / sr)

/-- Shape model of `librosa.onset.onset_strength(y=y, sr=sr)`: called
without `hop_length`, so librosa's default hop of 512 applies regardless
of the configured hop size. -/
def librosaOnsetStrength (y : List ℚ) (_sr : ℕ) : List ℚ :=
  List.replicate (nFrames y.length 512) 0

/-- Shape model of `librosa.feature.mfcc`. -/
def librosaMfcc (y : List ℚ) (_sr nMfcc _nFft hopLength : ℕ) : Mat :=
  ⟨nMfcc, List.replicate (nFrames y.length hopLength) (List.replicate nMfcc 0)⟩

/-- Shape model of the spectral centroid / bandwidth / rolloff features. -/
def librosaSpectralFeature (y : List ℚ) (_sr _nFft hopLength : ℕ) : List ℚ :=
  List.replicate (nFrames y.length hopLength) 0

/-- The repository's sliding-window maximum over the onset envelope
(lines 125-130): `np.max(onset_env[max(0, i-10) : min(len, i+11)])` at
each index. -/
def slidingMax (w : ℕ) (env : List ℚ) : List ℚ :=
  (List.range env.length).map (fun i =>
    let startIdx := i - w / 2
    let endIdx := min env.length (i + w / 2 + 1)
    listMax ((env.drop startIdx).take (endIdx - startIdx)))

/-- `np.percentile(xs, p)` with numpy's default linear interpolation. -/
def npPercentile (xs : List ℚ) (p : ℚ) : ℚ :=
  let srt := xs.mergeSort (fun a b => decide (a ≤ b))
  let n := srt.length
  if n = 0 then 0
  else
    let pos := p * ((n : ℚ) - 1) / 100
    let lo := ⌊pos⌋₊
    let hi := min (lo + 1) (n - 1)
    let vlo := srt.getD lo 0
    let vhi := srt.getD hi 0
    vlo + (pos - (lo : ℚ)) * (vhi - vlo)

/-- The `beat_strength` pipeline of `RhythmFeatureExtractor.extract`
(lines 123-145): sliding maximum, normalize to `[0,1]` when the maximum is
positive, floor at the 30th percentile, renormalize. -/
def beatStrengthFromOnset (env : List ℚ) : List ℚ :=
  let smoothed := slidingMax 20 env
  let m := listMax smoothed
  let bs := if 0 < m then smoothed.map (fun x => x / m) else smoothed
  let base := npPercentile bs 30
  let bs := bs.map (fun x => max x base)
  let m2 := listMax bs
  if 0 < m2 then bs.map (fun x => x / m2) else bs

structure TemporalOut where
  amplitude : List ℚ
  loudness : List ℚ
  zeroCrossingRate : List ℚ
deriving DecidableEq

structure FrequencyOut where
  spectrum : Mat
  melSpectrogram : Mat
  logMelSpectrogram : Mat
deriving DecidableEq

structure RhythmOut where
  bpm : ℚ
  beatFrames : List ℚ
  beatTimes : List ℚ
  beatStrength : List ℚ
  onsetEnvelope : List ℚ
deriving DecidableEq

structure TimbreOut where
  mfcc : Mat
  spectralCentroid : List ℚ
  spectralBandwidth : List ℚ
  spectralRolloff : List ℚ
deriving DecidableEq

structure ExtractAllOut where
  temporal : TemporalOut
  frequency : FrequencyOut
  rhythm : RhythmOut
  timbre : TimbreOut
deriving DecidableEq

/-- `TemporalFeatureExtractor.extract` (lines 45-66): note
`amplitude = np.abs(y)` is per sample, not per frame. -/
def temporalExtract (y : List ℚ) (_sr : ℕ) (config : FeatureConfig) : TemporalOut :=
  { amplitude := y.map (fun v => |v|)
    loudness := librosaRms y config.windowSize config.hopSize
    zeroCrossingRate := librosaZeroCrossingRate y config.windowSize config.hopSize }

/-- `FrequencyFeatureExtractor.extract` (lines 76-99). -/
def frequencyExtract (y : List ℚ) (sr : ℕ) (config : FeatureConfig) : FrequencyOut :=
  let mel := librosaMelspectrogram y sr config.nFft config.hopSize config.nMels
  { spectrum := librosaStftAbs y config.nFft config.hopSize
    melSpectrogram := mel
    logMelSpectrogram := librosaPowerToDb mel }

/-- `RhythmFeatureExtractor.extract` (lines 109-153). -/
def rhythmExtract (y : List ℚ) (sr : ℕ) (config : FeatureConfig) : RhythmOut :=
  let tb := librosaBeatTrack y sr (config.bpmRange.headD 60)
  let onset := librosaOnsetStrength y sr
  { bpm := tb.1
    beatFrames := tb.2
    beatTimes := librosaFramesToTime tb.2 sr config.hopSize
    beatStrength := beatStrengthFromOnset onset
    onsetEnvelope := onset }

/-- `TimbreFeatureExtractor.extract` (lines 163-200). -/
def timbreExtract (y : List ℚ) (sr : ℕ) (config : FeatureConfig) : TimbreOut :=
  { mfcc := librosaMfcc y sr config.nMfcc config.nFft config.hopSize
    spectralCentroid := librosaSpectralFeature y sr config.nFft config.hopSize
    spectralBandwidth := librosaSpectralFeature y sr config.nFft config.hopSize
    spectralRolloff := librosaSpectralFeature y sr config.nFft config.hopSize }

/-- `FeatureExtractorManager.extract_all` (lines 222-227): invokes each
registered extractor on the full waveform and stores its raw output.
There is no padding, truncation or any other length normalization. -/
def extract_all (y : List ℚ) (sr : ℕ) (config : FeatureConfig) : ExtractAllOut :=
  { temporal := temporalExtract y sr config
    frequency := frequencyExtract y sr config
    rhythm := rhythmExtract y sr config
    timbre := timbreExtract y sr config }

/-- The claimed common length:
`total_frames = ceil(len(samples)/hop_size) + 1` (this definition follows
the spec's words, for comparison with the embedded code). -/
def totalFramesSpec (n hop : ℕ) : ℕ := (n + hop - 1) / hop + 1

/-- The per-frame 1-D arrays of a bundle (`beat_frames`/`beat_times` are
1-D but indexed per detected beat, not per frame, so they are not
included; the refutation does not need them). -/
def oneDPerFrameArrays (b : ExtractAllOut) : List (List ℚ) :=
  [b.temporal.amplitude, b.temporal.loudness, b.temporal.zeroCrossingRate,
   b.rhythm.beatStrength, b.rhythm.onsetEnvelope,
   b.timbre.spectralCentroid, b.timbre.spectralBandwidth, b.timbre.spectralRolloff]

/-- The claimed invariant of C1, stated from the spec's words: every 1-D
per-frame array in the bundle has length `total_frames`. -/
def claimC1UniformLength (y : List ℚ) (sr : ℕ) (config : FeatureConfig) : Prop :=
  ∀ a ∈ oneDPerFrameArrays (extract_all y sr config),
    a.length = totalFramesSpec y.length config.hopSize

instance (y : List ℚ) (sr : ℕ) (config : FeatureConfig) :
    Decidable (claimC1UniformLength y sr config) := by
  unfold claimC1UniformLength
  infer_instance

/-! ## Concrete sample inputs used by witnesses -/

/-- The spec's classification scenario: mean amplitude `0.7` and tempo
`130` (no spectrum present, so the spectral aggregates are all zero). -/
def rockSample : FullFeatures :=
  { temporal := some { loudness := none, amplitude := some [7/10] }
    frequency := none
    rhythm := some { bpm := some 130, beatFrames := none, beatTimes := none
                     beatStrength := none, onsetEnvelope := none }
    timbre := some { mfcc := none, spectralCentroid := none } }

/-- A small full feature bundle with every category present and every
array non-empty. -/
def fullSample : FullFeatures :=
  { temporal := some { loudness := some [1/2], amplitude := some [1, 2, 3] }
    frequency := some { melSpectrogram := some ⟨2, [[1, 2]]⟩
                        spectrum := some ⟨2, [[1, 2]]⟩
                        logMelSpectrogram := some ⟨2, [[1, 2]]⟩ }
    rhythm := some { bpm := some 120, beatFrames := some [1], beatTimes := some [1/2]
                     beatStrength := some [1/2], onsetEnvelope := some [1, 2] }
    timbre := some { mfcc := some ⟨2, [[1, 2]]⟩, spectralCentroid := some [5] } }

/-! # Theorems

Shared dictionary and list lemmas come first, then one main theorem per
claim (with its witness or counterexample). -/

theorem dget_dset_self {α : Type} (d : AList α) (k : String) (v : α) :
    dget (dset d k v) k = some v := by
  induction d with
  | nil => simp [dget, dset]
  | cons e rest ih =>
    by_cases h : e.1 = k
    · simp [dget, dset, h]
    · simp [dget, dset, h, ih]

theorem dget_dset_ne {α : Type} (d : AList α) {k k' : String} (h : k' ≠ k) (v : α) :
    dget (dset d k' v) k = dget d k := by
  induction d with
  | nil => simp [dget, dset, h]
  | cons e rest ih =>
    by_cases he : e.1 = k'
    · simp [dget, dset, he, h]
    · simp only [dset, he, if_false, dget, ih]

theorem mem_le_listMax {x : ℚ} {l : List ℚ} (hx : x ∈ l) : x ≤ listMax l := by
  have keyInit : ∀ (r : List ℚ) (init : ℚ), init ≤ r.foldl max init := by
    intro r
    induction r with
    | nil => intro init; exact le_refl _
    | cons b r ih => intro init; exact le_trans (le_max_left init b) (ih (max init b))
  have key : ∀ (r : List ℚ) (init y : ℚ), y ∈ r → y ≤ r.foldl max init := by
    intro r
    induction r with
    | nil => intro init y hy; cases hy
    | cons b r ih =>
      intro init y hy
      rcases List.mem_cons.mp hy with rfl | hmem
      · exact le_trans (le_max_right init y) (keyInit r (max init y))
      · exact ih (max init b) y hmem
  unfold listMax
  rcases l with _ | ⟨a, rest⟩
  · cases hx
  · rcases List.mem_cons.mp hx with rfl | hmem
    · simpa using keyInit rest (max x x)
    · simpa using key rest (max a a) x hmem

/-! ## C1 — extract_all does not normalize 1-D array lengths -/

theorem beatStrengthFromOnset_length (env : List ℚ) :
    (beatStrengthFromOnset env).length = env.length := by
  have hs : (slidingMax 20 env).length = env.length := by
    simp [slidingMax]
  unfold beatStrengthFromOnset
  dsimp only
  split <;> split <;> simp [hs]

/-- C1 counterexample: for a 5-sample waveform with `hop_size = 2` the
bundle's 1-D arrays have lengths 5, 3, 3, 1, 1, 3, 3, 3 while the claimed
`total_frames = ceil(5/2)+1 = 4`; no array is padded or truncated. -/
theorem extract_all_uniform_length_cex :
    ¬ claimC1UniformLength [1, -2, 3, -4, 5] 22050 ⟨2048, 2, 2048, 128, 13, [60, 200]⟩ := by
  decide

/-- C1 amended: `extract_all` returns each extractor's raw output with no
length normalization: `amplitude` is per sample (`len(y)`), the framed
features have `1 + ⌊len(y)/hop_size⌋` frames, and the onset envelope and
beat strength have `1 + ⌊len(y)/512⌋` entries because
`librosa.onset.onset_strength` is called with its default hop. -/
theorem extract_all_raw_lengths (y : List ℚ) (sr : ℕ) (config : FeatureConfig) :
    (extract_all y sr config).temporal.amplitude.length = y.length ∧
    (extract_all y sr config).temporal.loudness.length = 1 + y.length / config.hopSize ∧
    (extract_all y sr config).temporal.zeroCrossingRate.length = 1 + y.length / config.hopSize ∧
    (extract_all y sr config).timbre.spectralCentroid.length = 1 + y.length / config.hopSize ∧
    (extract_all y sr config).rhythm.onsetEnvelope.length = 1 + y.length / 512 ∧
    (extract_all y sr config).rhythm.beatStrength.length = 1 + y.length / 512 := by
  refine ⟨?_, ?_, ?_, ?_, ?_, ?_⟩ <;>
    simp [extract_all, temporalExtract, timbreExtract, rhythmExtract, librosaRms,
      librosaZeroCrossingRate, librosaSpectralFeature, librosaOnsetStrength, nFrames,
      beatStrengthFromOnset_length]

/-! ## C5 — start() failure leaves the generator stopped -/

/-- C5: if the playback device cannot be initialized (`mixerInitFails`) or
the track cannot be loaded (`loadFails`), `start()` prints a failure
message and returns early: the state is unchanged, so the generator is not
running and no worker thread has been started. -/
theorem start_failure_leaves_stopped (env : MixerEnv) (s : AudioFeatureGenerator)
    (hrun : s.running = false)
    (hfail : (mixerInitFails env s || loadFails env s) = true) :
    (s.start env).1 = s ∧ (s.start env).1.running = false ∧
      (s.start env).1.threadStarted = s.threadStarted ∧ (s.start env).2 ≠ [] := by
  rcases env with ⟨mf, io, ro, lo, po, now⟩
  rcases s with ⟨sr, hl, running, ip, sl, ts, st⟩
  subst hrun
  rcases mf with _ | f
  · cases io <;> cases lo <;>
      simp_all [AudioFeatureGenerator.start, startAfterMixer, mixerInitFails, loadFails]
  · by_cases hf : f = sr <;> cases ro <;> cases lo <;>
      simp_all [AudioFeatureGenerator.start, startAfterMixer, mixerInitFails, loadFails]

/-- C5 witness: a concrete failing load (`loadOk = false`) on a stopped
generator. -/
theorem start_failure_leaves_stopped_witness :
    ((⟨22050, 512, false, false, false, false, 0⟩ : AudioFeatureGenerator).start
        ⟨none, true, true, false, true, 5⟩).1 = ⟨22050, 512, false, false, false, false, 0⟩ ∧
    ((⟨22050, 512, false, false, false, false, 0⟩ : AudioFeatureGenerator).start
        ⟨none, true, true, false, true, 5⟩).1.running = false ∧
    ((⟨22050, 512, false, false, false, false, 0⟩ : AudioFeatureGenerator).start
        ⟨none, true, true, false, true, 5⟩).1.threadStarted = false ∧
    ((⟨22050, 512, false, false, false, false, 0⟩ : AudioFeatureGenerator).start
        ⟨none, true, true, false, true, 5⟩).2 ≠ [] := by
  have h := start_failure_leaves_stopped ⟨none, true, true, false, true, 5⟩
    ⟨22050, 512, false, false, false, false, 0⟩ rfl (by decide)
  exact ⟨h.1, h.2.1, h.2.2.1, h.2.2.2⟩

/-! ## C6 — onset normalization with a zero local maximum -/

theorem getLastD_mem_onsetLocalWindow {env : List ℚ} (h : env ≠ []) :
    env.getLastD 0 ∈ onsetLocalWindow env := by
  have hlen : 0 < env.length := List.length_pos.mpr h
  have hne : env.drop (env.length - min 20 env.length) ≠ [] := by
    intro hcon
    have hcl := congrArg List.length hcon
    simp at hcl
    omega
  have hlast : (env.drop (env.length - min 20 env.length)).getLast? = env.getLast? := by
    conv_rhs => rw [← List.take_append_drop (env.length - min 20 env.length) env]
    rw [List.getLast?_append_of_ne_nil _ hne]
  have heq : env.getLastD 0 = (env.drop (env.length - min 20 env.length)).getLast hne := by
    rw [List.getLastD_eq_getLast?, ← hlast,
      List.getLast?_eq_getLast_of_ne_nil hne]
    rfl
  rw [show onsetLocalWindow env = env.drop (env.length - min 20 env.length) from rfl, heq]
  exact List.getLast_mem hne

/-- C6: when the local maximum of the trailing onset-envelope window is
zero, `calculate_onset_intensity` raises no exception (it returns a value)
and the raw intensity is zero, so the smoothed result is the previous
intensity moved toward zero by the clamped smoothing factor. -/
theorem onset_intensity_zero_local_max (features : LiveFeatures) (env : List ℚ)
    (prev sf : ℚ)
    (henv : dget2 features "rhythm" "onset_envelope" = some (.arr env))
    (hne : env ≠ [])
    (hmax : listMax (onsetLocalWindow env) = 0) :
    calculate_onset_intensity features prev sf = some (prev + clamp01 sf * (0 - prev)) := by
  have hlast_le : env.getLastD 0 ≤ 0 := by
    have := mem_le_listMax (getLastD_mem_onsetLocalWindow hne)
    rwa [hmax] at this
  have hraw : calcOnsetRaw env = some 0 := by
    have hclamp : clamp01 (env.getLastD 0) = 0 := by
      unfold clamp01
      rcases le_total (env.getLastD 0) 1 with h1 | h1
      · rw [min_eq_right h1]
        exact max_eq_left hlast_le
      · nlinarith [hlast_le]
    unfold calcOnsetRaw
    dsimp only
    rw [hmax]
    simp [hclamp]
    rw [← List.getLastD_eq_getLast?, hclamp]
  unfold calculate_onset_intensity
  rw [henv]
  have hne' : env.isEmpty = false := by simpa [List.isEmpty_iff] using hne
  simp [hne', hraw]

/-- C6 witness: a one-sample zero envelope with `previous = 1/2` and
`smoothing_factor = 3/10` yields `some (7/20)`. -/
theorem onset_intensity_zero_local_max_witness :
    calculate_onset_intensity [("rhythm", [("onset_envelope", PVal.arr [0])])]
      (1/2) (3/10) = some (7/20) := by
  have h := onset_intensity_zero_local_max
    [("rhythm", [("onset_envelope", PVal.arr [0])])] [0] (1/2) (3/10)
    (by decide) (by decide) (by decide)
  rw [h]
  norm_num [clamp01]

/-! ## C2 — put / get_near round trip -/

theorem put_buffer_eq {α : Type} (b : AudioFeatureBuffer α) (x : α) (ts : ℚ) :
    (b.put x ts).buffer =
      (b.buffer ++ [(x, ts)]).drop ((b.buffer.length + 1) - b.maxSize) := by
  unfold AudioFeatureBuffer.put
  dsimp only
  split
  · simp
  · have hcount : b.buffer.length + 1 - b.maxSize = 0 := by
      rename_i hcond
      simp at hcond
      omega
    simp [hcount]

theorem nearScan_snd_pos {α : Type} (t tol : ℚ) (l : List (α × ℚ))
    (init : Option α × Option ℚ)
    (hl : ∀ e ∈ l, e.2 ≠ t)
    (hinit : init.2 = none ∨ ∃ d, init.2 = some d ∧ 0 < d) :
    (l.foldl (AudioFeatureBuffer.nearStep t tol) init).2 = none ∨
      ∃ d, (l.foldl (AudioFeatureBuffer.nearStep t tol) init).2 = some d ∧ 0 < d := by
  induction l generalizing init with
  | nil => simpa using hinit
  | cons e l ih =>
    simp only [List.foldl_cons]
    apply ih
    · intro e2 he2
      exact hl e2 (List.mem_cons_of_mem _ he2)
    · unfold AudioFeatureBuffer.nearStep
      dsimp only
      split
      · right
        refine ⟨|e.2 - t|, rfl, ?_⟩
        exact abs_pos.mpr (sub_ne_zero.mpr (hl e (List.mem_cons_self _ _)))
      · exact hinit

/-- C2 counterexample: with `tolerance = 0` the strict comparison
`diff < tolerance` can never hold, so putting slice `7` at timestamp `2`
and immediately querying `get_features_at_time(2, 0)` yields `none`, not
the stored slice. -/
theorem put_getNear_zero_tolerance_cex :
    ((AudioFeatureBuffer.empty ℕ 10).put 7 2).getFeaturesAtTime 2 0 = none ∧
    ((AudioFeatureBuffer.empty ℕ 10).put 7 2).getFeaturesAtTime 2 0 ≠ some 7 := by
  have h : ((AudioFeatureBuffer.empty ℕ 10).put 7 2).getFeaturesAtTime 2 0 = none := by
    simp [AudioFeatureBuffer.getFeaturesAtTime, AudioFeatureBuffer.put,
      AudioFeatureBuffer.empty, AudioFeatureBuffer.nearStep]
  exact ⟨h, by rw [h]; simp⟩

/-- C2 amended: for any positive tolerance, `put(s, t)` followed by
`get_near(t, tolerance)` returns exactly `s`, provided the buffer holds at
least one slot and no earlier entry carries the very timestamp `t` (such
an entry would win the strict `diff < best_diff` comparison). -/
theorem put_getNear_roundtrip {α : Type} (b : AudioFeatureBuffer α) (s : α)
    (t tol : ℚ) (hmax : 1 ≤ b.maxSize) (htol : 0 < tol)
    (hfresh : ∀ e ∈ b.buffer, e.2 ≠ t) :
    (b.put s t).getFeaturesAtTime t tol = some s := by
  have hbuf : (b.put s t).buffer =
      b.buffer.drop ((b.buffer.length + 1) - b.maxSize) ++ [(s, t)] := by
    rw [put_buffer_eq]
    exact List.drop_append_of_le_length (by omega)
  unfold AudioFeatureBuffer.getFeaturesAtTime
  rw [hbuf]
  have hne : (b.buffer.drop ((b.buffer.length + 1) - b.maxSize) ++ [(s, t)]).isEmpty
      = false := by
    simp
  simp only [hne, Bool.false_eq_true, if_false, List.foldl_append, List.foldl_cons,
    List.foldl_nil]
  have hpos := nearScan_snd_pos t tol
    (b.buffer.drop ((b.buffer.length + 1) - b.maxSize)) (none, none)
    (fun e he => hfresh e (List.mem_of_mem_drop he)) (Or.inl rfl)
  set st := (b.buffer.drop ((b.buffer.length + 1) - b.maxSize)).foldl
    (AudioFeatureBuffer.nearStep t tol) (none, none) with hst
  unfold AudioFeatureBuffer.nearStep
  dsimp only
  rcases hpos with h0 | ⟨d, hd, hdpos⟩
  · simp [h0, htol]
  · simp [hd, htol, hdpos]

/-- C2 witness for the amended statement: tolerance `1/10` on a fresh
buffer. -/
theorem put_getNear_roundtrip_witness :
    ((AudioFeatureBuffer.empty ℕ 10).put 7 2).getFeaturesAtTime 2 (1/10) = some 7 :=
  put_getNear_roundtrip (AudioFeatureBuffer.empty ℕ 10) 7 2 (1/10)
    (by decide) (by norm_num) (by simp [AudioFeatureBuffer.empty])

/-! ## C7 — bounded ring-buffer capacity -/

theorem putMany_buffer {α : Type} (l : List (α × ℚ)) (b : AudioFeatureBuffer α)
    (h : b.buffer.length ≤ b.maxSize) :
    (putMany b l).buffer =
      (b.buffer ++ l).drop ((b.buffer.length + l.length) - b.maxSize) := by
  induction l generalizing b with
  | nil =>
    have h0 : b.buffer.length - b.maxSize = 0 := by omega
    simp [putMany, h0]
  | cons e l ih =>
    have hput : (b.put e.1 e.2).buffer =
        (b.buffer ++ [(e.1, e.2)]).drop ((b.buffer.length + 1) - b.maxSize) :=
      put_buffer_eq b e.1 e.2
    have hm : (b.put e.1 e.2).maxSize = b.maxSize := rfl
    have hlen : (b.put e.1 e.2).buffer.length =
        (b.buffer.length + 1) - ((b.buffer.length + 1) - b.maxSize) := by
      rw [hput]
      simp
    have hle : (b.put e.1 e.2).buffer.length ≤ (b.put e.1 e.2).maxSize := by
      rw [hlen, hm]
      omega
    have hstep : putMany b (e :: l) = putMany (b.put e.1 e.2) l := by
      simp [putMany]
    rw [hstep, ih _ hle, hm, hlen, hput]
    rw [← List.drop_append_of_le_length (by simp)]
    rw [List.drop_drop]
    have hconcat : b.buffer ++ [(e.1, e.2)] ++ l = b.buffer ++ e :: l := by simp
    rw [hconcat]
    congr 1
    simp only [List.length_cons]
    omega

theorem putMany_getLatest {α : Type} (l : List (α × ℚ)) (b : AudioFeatureBuffer α)
    (h : l ≠ []) :
    (putMany b l).getLatest = l.getLast?.map Prod.fst := by
  induction l generalizing b with
  | nil => cases h rfl
  | cons e l ih =>
    rcases l with _ | ⟨e2, l2⟩
    · simp [putMany, AudioFeatureBuffer.getLatest, AudioFeatureBuffer.put]
    · have hstep : putMany b (e :: e2 :: l2) = putMany (b.put e.1 e.2) (e2 :: l2) := by
        simp [putMany]
      rw [hstep, ih _ (by simp)]
      rw [List.getLast?_cons_cons]

/-- C7: starting from an empty buffer of capacity `c` and inserting
`c + k` slices (`k > 0`), the deque holds exactly the `c` most recent
entries in insertion order (the oldest were overwritten first) and
`get_latest()` returns the most recently inserted slice. -/
theorem buffer_capacity_overwrite {α : Type} (c k : ℕ) (entries : List (α × ℚ))
    (hlen : entries.length = c + k) (hk : 0 < k) :
    (putMany (AudioFeatureBuffer.empty α c) entries).buffer = entries.drop k ∧
    (putMany (AudioFeatureBuffer.empty α c) entries).buffer.length = c ∧
    (putMany (AudioFeatureBuffer.empty α c) entries).getLatest =
      entries.getLast?.map Prod.fst := by
  have hb := putMany_buffer entries (AudioFeatureBuffer.empty α c) (by simp [AudioFeatureBuffer.empty])
  have hbuf : (putMany (AudioFeatureBuffer.empty α c) entries).buffer = entries.drop k := by
    rw [hb]
    have h0 : (AudioFeatureBuffer.empty α c).buffer = [] := rfl
    rw [h0]
    simp only [List.nil_append, List.length_nil]
    congr 1
    simp [AudioFeatureBuffer.empty]
    omega
  refine ⟨hbuf, ?_, ?_⟩
  · rw [hbuf]
    simp
    omega
  · apply putMany_getLatest
    intro hcon
    rw [hcon] at hlen
    simp at hlen
    omega

/-- C7 witness: capacity 2, three inserts. -/
theorem buffer_capacity_overwrite_witness :
    (putMany (AudioFeatureBuffer.empty ℕ 2) [(5, 0), (6, 1), (7, 2)]).buffer =
      [(6, 1), (7, 2)] ∧
    (putMany (AudioFeatureBuffer.empty ℕ 2) [(5, 0), (6, 1), (7, 2)]).getLatest =
      some 7 := by
  have h := buffer_capacity_overwrite 2 1 ([(5, 0), (6, 1), (7, 2)] : List (ℕ × ℚ))
    (by decide) (by decide)
  refine ⟨?_, ?_⟩
  · rw [h.1]
    rfl
  · rw [h.2.2]
    rfl

/-! ## C4 — tracker EMA bounds -/

theorem clamp01_eq_self {sf : ℚ} (h0 : 0 ≤ sf) (h1 : sf ≤ 1) : clamp01 sf = sf := by
  unfold clamp01
  rw [min_eq_right h1, max_eq_right h0]

theorem beatTrackerSteps_bounds (sf : ℚ) (h0 : 0 < sf) (h1 : sf ≤ 1)
    (fs : List LiveFeatures) (cur : ℚ) (hc0 : 0 ≤ cur) (hc1 : cur ≤ 1)
    (hraw : ∀ f ∈ fs, 0 ≤ rawBeatStrength f ∧ rawBeatStrength f ≤ 1) :
    (∀ v ∈ beatTrackerSteps sf cur fs, 0 ≤ v ∧ v ≤ 1) ∧
    List.Chain' (fun a b => |b - a| ≤ sf) (cur :: beatTrackerSteps sf cur fs) := by
  induction fs generalizing cur with
  | nil => simp [beatTrackerSteps]
  | cons f fs ih =>
    obtain ⟨hr0, hr1⟩ := hraw f (List.mem_cons_self _ _)
    have hstep : smooth_beat_strength (rawBeatStrength f) cur sf
        = cur + sf * (rawBeatStrength f - cur) := by
      unfold smooth_beat_strength
      rw [clamp01_eq_self h0.le h1]
    have hc0' : 0 ≤ cur + sf * (rawBeatStrength f - cur) := by nlinarith
    have hc1' : cur + sf * (rawBeatStrength f - cur) ≤ 1 := by nlinarith
    have hdiff : |cur + sf * (rawBeatStrength f - cur) - cur| ≤ sf := by
      rw [add_sub_cancel_left, abs_mul, abs_of_pos h0]
      have habs : |rawBeatStrength f - cur| ≤ 1 := abs_le.mpr ⟨by linarith, by linarith⟩
      nlinarith
    have ihres := ih (cur + sf * (rawBeatStrength f - cur)) hc0' hc1'
      (fun g hg => hraw g (List.mem_cons_of_mem _ hg))
    have hunfold : beatTrackerSteps sf cur (f :: fs)
        = (cur + sf * (rawBeatStrength f - cur))
          :: beatTrackerSteps sf (cur + sf * (rawBeatStrength f - cur)) fs := by
      simp only [beatTrackerSteps]
      rw [hstep]
    rw [hunfold]
    constructor
    · intro v hv
      rcases List.mem_cons.mp hv with rfl | hmem
      · exact ⟨hc0', hc1'⟩
      · exact ihres.1 v hmem
    · exact List.chain'_cons.mpr ⟨hdiff, ihres.2⟩

/-- C4: with a smoothing factor in `(0, 1]` and every extracted raw value
in `[0, 1]`, each `BeatStrengthTracker.update` applies the exponential
moving average `current + sf * (raw - current)`, every returned value lies
in `[0, 1]`, and successive returned values (starting from the
uninitialized `0`) differ by at most `sf * 1.0`. -/
theorem tracker_update_bounds (sf : ℚ) (fs : List LiveFeatures)
    (hsf0 : 0 < sf) (hsf1 : sf ≤ 1)
    (hraw : ∀ f ∈ fs, 0 ≤ rawBeatStrength f ∧ rawBeatStrength f ≤ 1) :
    (∀ (f : LiveFeatures) (c : ℚ),
        smooth_beat_strength (rawBeatStrength f) c sf
          = c + sf * (rawBeatStrength f - c)) ∧
    (∀ v ∈ beatTrackerOutputs sf fs, 0 ≤ v ∧ v ≤ 1) ∧
    List.Chain' (fun a b => |b - a| ≤ sf) (0 :: beatTrackerOutputs sf fs) := by
  have h := beatTrackerSteps_bounds sf hsf0 hsf1 fs 0 le_rfl (by norm_num) hraw
  refine ⟨fun f c => ?_, h.1, h.2⟩
  unfold smooth_beat_strength
  rw [clamp01_eq_self hsf0.le hsf1]

/-- C4 witness: `sf = 1` and one update whose raw beat strength is `1`. -/
theorem tracker_update_bounds_witness :
    (∀ v ∈ beatTrackerOutputs 1 [[("rhythm", [("beat_strength", PVal.arr [1])])]],
        0 ≤ v ∧ v ≤ 1) ∧
    List.Chain' (fun a b => |b - a| ≤ (1 : ℚ))
      (0 :: beatTrackerOutputs 1 [[("rhythm", [("beat_strength", PVal.arr [1])])]]) := by
  have h := tracker_update_bounds 1 [[("rhythm", [("beat_strength", PVal.arr [1])])]]
    (by norm_num) (le_refl 1) (by decide)
  exact ⟨h.2.1, h.2.2⟩

/-! ## C3 — beat_response off-beat value -/

/-- C3 counterexample: register the piano audio category (whose
`rhythm_sensitivity` is `0.6`) and apply the registered `piano_waveform`
pattern to live features that are not on a beat: the code stores the
literal `0.5` as `beat_response`, and `0.5 ≠ 0.6 * 0.5`, refuting
`beat_response = rhythm_sensitivity * 0.5` off beat. -/
theorem beat_response_cex :
    dget ((libraryMatcher.registerAudioCategory "piano"
        ⟨pianoBaseAttributes⟩).applyPattern "piano_waveform"
        [("is_beat", PVal.bool false)]) "beat_response" = some (PVal.num (1/2)) ∧
    dget pianoBaseAttributes "rhythm_sensitivity" = some (PVal.num (6/10)) ∧
    (1 : ℚ)/2 ≠ (6/10) * (1/2) := by
  refine ⟨rfl, rfl, by norm_num⟩

/-- C3 amended: whenever the audio category's base attributes define a
`rhythm_sensitivity` and the live features contain an `is_beat` flag, the
mapping sets `beat_response` to the rhythm sensitivity when the flag is
true and to the constant `0.5` (not `rhythm_sensitivity * 0.5`) when it is
false. -/
theorem beat_response_amended (audioFeatures baseParams visualConfig : LiveDict)
    (rv : PVal) (b : Bool)
    (hr : dget baseParams "rhythm_sensitivity" = some rv)
    (hb : dget audioFeatures "is_beat" = some (PVal.bool b)) :
    dget (applyMappingRules audioFeatures baseParams visualConfig) "beat_response"
      = some (if b then rv else PVal.num (1/2)) := by
  unfold applyMappingRules dynamicBranch rhythmBranch
  rw [hr, hb]
  dsimp only
  cases hdg : dget baseParams "dynamic_range" with
  | none =>
    rw [dget_dset_self]
    rfl
  | some dv =>
    rw [dget_dset_ne _ (by decide) dv, dget_dset_self]
    rfl

/-- C3 witness for the amended statement. -/
theorem beat_response_amended_witness :
    dget (applyMappingRules [("is_beat", PVal.bool false)]
        [("rhythm_sensitivity", PVal.num 1)] []) "beat_response"
      = some (PVal.num (1/2)) := by
  have h := beat_response_amended [("is_beat", PVal.bool false)]
    [("rhythm_sensitivity", PVal.num 1)] [] (PVal.num 1) false rfl rfl
  simpa using h

/-! ## C9 — custom config overrides win -/

/-- C9: for every live feature dict, applying the library's
`rock_spectrum` pattern yields a parameter map whose `color` is the
literal override `"#FF4500"`, because the pattern's custom config is
overlaid last. -/
theorem rock_spectrum_custom_color (audioFeatures : LiveDict) :
    dget (libraryMatcher.applyPattern "rock_spectrum" audioFeatures) "color"
      = some (PVal.str "#FF4500") := by
  have hp : dget libraryMatcher.patterns "rock_spectrum" =
      some ⟨"rock", "spectrum",
        [("color", .str "#FF4500"), ("bar_width", .num 8), ("intensity", .num (15/10))]⟩ := rfl
  unfold PatternMatcher.applyPattern
  rw [hp]
  show dget (dset (dset (dset
      (libraryMatcher.matchAudioToVisual "rock" audioFeatures "spectrum")
      "color" (.str "#FF4500")) "bar_width" (.num 8)) "intensity" (.num (15/10)))
      "color" = some (PVal.str "#FF4500")
  rw [dget_dset_ne _ (by decide), dget_dset_ne _ (by decide), dget_dset_self]

/-! ## C8 — style classification -/

theorem argmaxStyle_spec (f : StyleFeatures) :
    (∀ t ∈ styleOrder, styleScore f t ≤ styleScore f (argmaxStyle f)) ∧
    (∀ t ∈ styleOrder, styleScore f t = styleScore f (argmaxStyle f) →
      styleIndex (argmaxStyle f) ≤ styleIndex t) := by
  unfold argmaxStyle
  simp only [List.foldl_cons, List.foldl_nil]
  by_cases h1 : styleScore f Style.piano < styleScore f Style.rock
  · rw [if_pos h1]
    simp only [styleScore] at h1
    by_cases h2 : styleScore f Style.rock < styleScore f Style.dj
    · rw [if_pos h2]
      simp only [styleScore] at h2
      by_cases h3 : styleScore f Style.dj < styleScore f Style.light
      · rw [if_pos h3]
        simp only [styleScore] at h3
        refine ⟨?_, ?_⟩
        · intro t ht
          fin_cases ht <;> simp only [styleScore] <;> linarith
        · intro t ht heq
          fin_cases ht <;> simp only [styleScore] at heq <;> simp only [styleIndex] <;>
            first
            | omega
            | (exfalso; linarith)
      · rw [if_neg h3]
        simp only [styleScore] at h3
        refine ⟨?_, ?_⟩
        · intro t ht
          fin_cases ht <;> simp only [styleScore] <;> linarith
        · intro t ht heq
          fin_cases ht <;> simp only [styleScore] at heq <;> simp only [styleIndex] <;>
            first
            | omega
            | (exfalso; linarith)
    · rw [if_neg h2]
      simp only [styleScore] at h2
      by_cases h3 : styleScore f Style.rock < styleScore f Style.light
      · rw [if_pos h3]
        simp only [styleScore] at h3
        refine ⟨?_, ?_⟩
        · intro t ht
          fin_cases ht <;> simp only [styleScore] <;> linarith
        · intro t ht heq
          fin_cases ht <;> simp only [styleScore] at heq <;> simp only [styleIndex] <;>
            first
            | omega
            | (exfalso; linarith)
      · rw [if_neg h3]
        simp only [styleScore] at h3
        refine ⟨?_, ?_⟩
        · intro t ht
          fin_cases ht <;> simp only [styleScore] <;> linarith
        · intro t ht heq
          fin_cases ht <;> simp only [styleScore] at heq <;> simp only [styleIndex] <;>
            first
            | omega
            | (exfalso; linarith)
  · rw [if_neg h1]
    simp only [styleScore] at h1
    by_cases h2 : styleScore f Style.piano < styleScore f Style.dj
    · rw [if_pos h2]
      simp only [styleScore] at h2
      by_cases h3 : styleScore f Style.dj < styleScore f Style.light
      · rw [if_pos h3]
        simp only [styleScore] at h3
        refine ⟨?_, ?_⟩
        · intro t ht
          fin_cases ht <;> simp only [styleScore] <;> linarith
        · intro t ht heq
          fin_cases ht <;> simp only [styleScore] at heq <;> simp only [styleIndex] <;>
            first
            | omega
            | (exfalso; linarith)
      · rw [if_neg h3]
        simp only [styleScore] at h3
        refine ⟨?_, ?_⟩
        · intro t ht
          fin_cases ht <;> simp only [styleScore] <;> linarith
        · intro t ht heq
          fin_cases ht <;> simp only [styleScore] at heq <;> simp only [styleIndex] <;>
            first
            | omega
            | (exfalso; linarith)
    · rw [if_neg h2]
      simp only [styleScore] at h2
      by_cases h3 : styleScore f Style.piano < styleScore f Style.light
      · rw [if_pos h3]
        simp only [styleScore] at h3
        refine ⟨?_, ?_⟩
        · intro t ht
          fin_cases ht <;> simp only [styleScore] <;> linarith
        · intro t ht heq
          fin_cases ht <;> simp only [styleScore] at heq <;> simp only [styleIndex] <;>
            first
            | omega
            | (exfalso; linarith)
      · rw [if_neg h3]
        simp only [styleScore] at h3
        refine ⟨?_, ?_⟩
        · intro t ht
          fin_cases ht <;> simp only [styleScore] <;> linarith
        · intro t ht heq
          fin_cases ht <;> simp only [styleScore] at heq <;> simp only [styleIndex] <;>
            first
            | omega
            | (exfalso; linarith)

/-- C8: `analyze` returns `none` exactly when the feature dict is empty;
otherwise it returns a style whose score is maximal among the four fixed
profiles with ties broken by registration order (piano, rock, dj, light);
and `_score_rock` is exactly the claimed threshold bands (+3 for amplitude
above 0.5, +2 for tempo strictly between 100 and 160, +3 for high-band
energy above 0.3, +2 for spectral bandwidth above 0.25 — compared in
squared form). -/
theorem analyze_scoring (d : FullFeatures) :
    (analyze d = none ↔ d.isEmptyDict = true) ∧
    (∀ s, analyze d = some s →
      (∀ t ∈ styleOrder, styleScore (computeStyleFeatures d) t
          ≤ styleScore (computeStyleFeatures d) s) ∧
      (∀ t ∈ styleOrder, styleScore (computeStyleFeatures d) t
          = styleScore (computeStyleFeatures d) s → styleIndex s ≤ styleIndex t)) ∧
    (∀ f : StyleFeatures, scoreRock f =
      (if 5/10 < f.amplitude then 3 else 0) +
      (if 100 < f.bpm ∧ f.bpm < 160 then 2 else 0) +
      (if 3/10 < f.highFreqEnergy then 3 else 0) +
      (if (25/100) ^ 2 < f.spectralBandwidthSq then 2 else 0)) := by
  refine ⟨?_, ?_, fun f => rfl⟩
  · unfold analyze
    by_cases he : d.isEmptyDict <;> simp [he]
  · intro s hs
    unfold analyze at hs
    by_cases he : d.isEmptyDict
    · simp [he] at hs
    · simp [he] at hs
      subst hs
      exact argmaxStyle_spec (computeStyleFeatures d)

/-- C8 witness: the spec's scenario (amplitude `0.7`, tempo `130`) is
classified as rock, and in particular rock's score dominates dj's. -/
theorem analyze_scoring_witness :
    analyze rockSample = some Style.rock ∧
    styleScore (computeStyleFeatures rockSample) Style.dj
      ≤ styleScore (computeStyleFeatures rockSample) Style.rock := by
  have hfeat : computeStyleFeatures rockSample = ⟨7/10, 0, 130, 0, 0, 0, 0⟩ := by
    unfold computeStyleFeatures rockSample
    norm_num [listMean, listSum]
  have hrock : analyze rockSample = some Style.rock := by
    unfold analyze
    have hemp : rockSample.isEmptyDict = false := rfl
    rw [hemp]
    simp only [Bool.false_eq_true, if_false, Option.some.injEq]
    rw [hfeat]
    unfold argmaxStyle
    simp only [List.foldl_cons, List.foldl_nil]
    norm_num [styleScore, scorePiano, scoreRock, scoreDj, scoreLight]
  have h := analyze_scoring rockSample
  exact ⟨hrock, (h.2.1 Style.rock hrock).1 Style.dj (by decide)⟩

/-! ## C10 — slice generation never indexes out of bounds -/

theorem clampedGet?_isSome (l : List ℚ) (cf : ℕ) (h : l ≠ []) :
    (clampedGet? l cf).isSome = true := by
  unfold clampedGet?
  have hlt : min cf (l.length - 1) < l.length := by
    have := List.length_pos.mpr h
    omega
  simp [List.getElem?_eq_getElem hlt]

theorem clampedCol?_isSome (m : Mat) (cf : ℕ) (h : m.cols ≠ []) :
    (clampedCol? m cf).isSome = true := by
  unfold clampedCol?
  have hlt : min cf (m.cols.length - 1) < m.cols.length := by
    have := List.length_pos.mpr h
    omega
  simp [List.getElem?_eq_getElem hlt]

theorem rtTemporal_isSome (sr : ℕ) (t : TemporalFull) (e : ℚ) (cf : ℕ)
    (hl : optNonempty t.loudness = true) : (rtTemporal sr t e cf).isSome = true := by
  unfold rtTemporal
  cases ht : t.loudness with
  | none => rfl
  | some l =>
    have hne : l ≠ [] := by
      rw [ht] at hl
      simpa [optNonempty, List.isEmpty_iff] using hl
    obtain ⟨v, hv⟩ := Option.isSome_iff_exists.mp (clampedGet?_isSome l cf hne)
    simp [hv]

theorem rtCol_isSome (m : Mat) (cf : ℕ) (h : m.cols ≠ []) :
    (rtCol m cf).isSome = true := by
  unfold rtCol
  obtain ⟨c, hc⟩ := Option.isSome_iff_exists.mp (clampedCol?_isSome m cf h)
  simp [hc]

theorem matOptNonempty_cols {o : Option Mat} {m : Mat}
    (h : o.all Mat.nonemptyCols = true) (hm : o = some m) : m.cols ≠ [] := by
  subst hm
  simpa [Mat.nonemptyCols, List.isEmpty_iff] using h

theorem rtFrequency_isSome (fr : FrequencyFull) (cf : ℕ)
    (h1 : fr.melSpectrogram.all Mat.nonemptyCols = true)
    (h2 : fr.spectrum.all Mat.nonemptyCols = true)
    (h3 : fr.logMelSpectrogram.all Mat.nonemptyCols = true) :
    (rtFrequency fr cf).isSome = true := by
  unfold rtFrequency
  cases hm : fr.melSpectrogram with
  | none =>
    cases hs : fr.spectrum with
    | none =>
      cases hlm : fr.logMelSpectrogram with
      | none => rfl
      | some m3 =>
        obtain ⟨c3, hc3⟩ := Option.isSome_iff_exists.mp
          (rtCol_isSome m3 cf (matOptNonempty_cols h3 hlm))
        simp [hc3]
    | some m2 =>
      obtain ⟨c2, hc2⟩ := Option.isSome_iff_exists.mp
        (rtCol_isSome m2 cf (matOptNonempty_cols h2 hs))
      cases hlm : fr.logMelSpectrogram with
      | none => simp [hc2]
      | some m3 =>
        obtain ⟨c3, hc3⟩ := Option.isSome_iff_exists.mp
          (rtCol_isSome m3 cf (matOptNonempty_cols h3 hlm))
        simp [hc2, hc3]
  | some m1 =>
    obtain ⟨c1, hc1⟩ := Option.isSome_iff_exists.mp
      (rtCol_isSome m1 cf (matOptNonempty_cols h1 hm))
    cases hs : fr.spectrum with
    | none =>
      cases hlm : fr.logMelSpectrogram with
      | none => simp [hc1]
      | some m3 =>
        obtain ⟨c3, hc3⟩ := Option.isSome_iff_exists.mp
          (rtCol_isSome m3 cf (matOptNonempty_cols h3 hlm))
        simp [hc1, hc3]
    | some m2 =>
      obtain ⟨c2, hc2⟩ := Option.isSome_iff_exists.mp
        (rtCol_isSome m2 cf (matOptNonempty_cols h2 hs))
      cases hlm : fr.logMelSpectrogram with
      | none => simp [hc1, hc2]
      | some m3 =>
        obtain ⟨c3, hc3⟩ := Option.isSome_iff_exists.mp
          (rtCol_isSome m3 cf (matOptNonempty_cols h3 hlm))
        simp [hc1, hc2, hc3]

theorem rtTimbre_isSome (tb : TimbreFull) (cf : ℕ)
    (hc : optNonempty tb.spectralCentroid = true) :
    (rtTimbre tb cf).isSome = true := by
  unfold rtTimbre
  cases ht : tb.spectralCentroid with
  | none => rfl
  | some l =>
    have hne : l ≠ [] := by
      rw [ht] at hc
      simpa [optNonempty, List.isEmpty_iff] using hc
    obtain ⟨v, hv⟩ := Option.isSome_iff_exists.mp (clampedGet?_isSome l cf hne)
    simp [hv]

/-- C10: for every full feature bundle whose present per-category arrays
are all non-empty and every elapsed time `≥ 0`, slice generation succeeds:
every per-frame lookup clamps its index with `min(index, length - 1)`, so
no array access is out of bounds and a well-formed slice is returned even
when the elapsed time maps past the final frame. -/
theorem generate_slice_total (sampleRate hopLength : ℕ) (full : FullFeatures)
    (elapsed : ℚ) (helapsed : 0 ≤ elapsed)
    (hne : full.allNonempty = true) :
    (generateRealTimeFeatures sampleRate hopLength full elapsed).isSome = true := by
  rw [FullFeatures.allNonempty] at hne
  simp only [Bool.and_eq_true] at hne
  obtain ⟨⟨⟨h1, h2⟩, h3⟩, h4⟩ := hne
  unfold generateRealTimeFeatures
  dsimp only
  cases ht : full.temporal with
  | none =>
    cases hf : full.frequency with
    | none =>
      cases htb : full.timbre with
      | none => simp
      | some tb =>
        rw [htb] at h4
        simp only [Bool.and_eq_true] at h4
        obtain ⟨v, hv⟩ := Option.isSome_iff_exists.mp
          (rtTimbre_isSome tb (currentFrameIndex sampleRate hopLength elapsed) h4.2)
        simp [hv]
    | some fr =>
      rw [hf] at h2
      simp only [Bool.and_eq_true] at h2
      obtain ⟨fv, hfv⟩ := Option.isSome_iff_exists.mp
        (rtFrequency_isSome fr (currentFrameIndex sampleRate hopLength elapsed)
          h2.1.1 h2.1.2 h2.2)
      cases htb : full.timbre with
      | none => simp [hfv]
      | some tb =>
        rw [htb] at h4
        simp only [Bool.and_eq_true] at h4
        obtain ⟨v, hv⟩ := Option.isSome_iff_exists.mp
          (rtTimbre_isSome tb (currentFrameIndex sampleRate hopLength elapsed) h4.2)
        simp [hfv, hv]
  | some t =>
    rw [ht] at h1
    simp only [Bool.and_eq_true] at h1
    obtain ⟨tv, htv⟩ := Option.isSome_iff_exists.mp
      (rtTemporal_isSome sampleRate t elapsed
        (currentFrameIndex sampleRate hopLength elapsed) h1.1)
    cases hf : full.frequency with
    | none =>
      cases htb : full.timbre with
      | none => simp [htv]
      | some tb =>
        rw [htb] at h4
        simp only [Bool.and_eq_true] at h4
        obtain ⟨v, hv⟩ := Option.isSome_iff_exists.mp
          (rtTimbre_isSome tb (currentFrameIndex sampleRate hopLength elapsed) h4.2)
        simp [htv, hv]
    | some fr =>
      rw [hf] at h2
      simp only [Bool.and_eq_true] at h2
      obtain ⟨fv, hfv⟩ := Option.isSome_iff_exists.mp
        (rtFrequency_isSome fr (currentFrameIndex sampleRate hopLength elapsed)
          h2.1.1 h2.1.2 h2.2)
      cases htb : full.timbre with
      | none => simp [htv, hfv]
      | some tb =>
        rw [htb] at h4
        simp only [Bool.and_eq_true] at h4
        obtain ⟨v, hv⟩ := Option.isSome_iff_exists.mp
          (rtTimbre_isSome tb (currentFrameIndex sampleRate hopLength elapsed) h4.2)
        simp [htv, hfv, hv]

/-- C10 witness: a concrete bundle with all four categories present and
every array non-empty, with an elapsed time far past the final frame. -/
theorem generate_slice_total_witness :
    (generateRealTimeFeatures 22050 512 fullSample 100).isSome = true :=
  generate_slice_total 22050 512 fullSample 100 (by norm_num) (by decide)

end MusicV
